import Mathlib

/-!
# Verification of the video-clipper project state and persistence engine

This file is a shallow embedding, in Lean 4, of the core of the
`video-clipper2` repository: the clip/event data model and its validators
(`src/types/clip.ts`, `src/types/project.ts`, the event type module), and the
project store (`projectStore.tsx`): the mark state machine, the
clip/selection repository, the event metadata manager, and the save/load
persistence protocol.

Modelling conventions:
* JS `number` is modelled as `ℚ` (exact; all comparisons performed by the
  code are order/equality comparisons that `ℚ` reflects faithfully).
* A JS `Date` object is modelled by its instant: milliseconds since the
  epoch, as `Int` (`Millis`).  `Date.prototype.toISOString` and the parsing
  of such a string by `new Date(...)` are mutually inverse by the ECMAScript
  specification; we model an ISO-8601 date-time string abstractly as a token
  carrying its instant (`JsVal.jiso`), rather than reproducing the platform's
  text rendering, which is not code of this repository.
* React `useState` setters are modelled by pure record updates: each store
  operation is a function from the store state to the new store state.
  Within one handler the source reads only the closure values of the current
  render, which our sequential record updates reproduce exactly.
* The collaborators behind `window.electronAPI` (file dialogs, file I/O,
  existence checks) are modelled as environment records holding the value
  each call would return.  `alert` is modelled by accumulating the alerted
  messages; `console` output is not modelled.
-/

/-- Milliseconds since the Unix epoch: the instant of a JS `Date`. -/
abbrev Millis := Int

/-- A JS `number` holding a time in seconds (exact model). -/
abbrev Seconds := ℚ

/-- A runtime value sitting in a `Date`-typed field.  After `loadProject`
commits a document, a clip's `createdOn`/`modifiedOn` are in fact the ISO
strings from the file (the code performs no conversion for clips), so a
Date-typed field can hold either a real `Date` object or an ISO string; both
denote an instant. -/
inductive DateLike where
  | date (ms : Millis)
  | isoStr (ms : Millis)
deriving DecidableEq

/-- The instant denoted by a `Date`-or-ISO-string runtime value. -/
def DateLike.instant : DateLike → Millis
  | .date ms => ms
  | .isoStr ms => ms

/-- `enum Gender` from the event type module. -/
inductive Gender where
  | boys | girls | coed
deriving DecidableEq

/-- The string value of each `Gender` enum member. -/
def Gender.toStr : Gender → String
  | .boys => "boys"
  | .girls => "girls"
  | .coed => "coed"

/-- `enum AgeLevel` from the event type module. -/
inductive AgeLevel where
  | jv | varsity | ncaaDiv3
deriving DecidableEq

/-- The string value of each `AgeLevel` enum member. -/
def AgeLevel.toStr : AgeLevel → String
  | .jv => "JV"
  | .varsity => "Varsity"
  | .ncaaDiv3 => "NCAA Div 3"

/-- `enum Sport` from the event type module. -/
inductive Sport where
  | basketball | football | volleyball
deriving DecidableEq

/-- The string value of each `Sport` enum member. -/
def Sport.toStr : Sport → String
  | .basketball => "basketball"
  | .football => "football"
  | .volleyball => "volleyball"

/-- `enum CallCategory` from `call.ts`. -/
inductive CallCategory where
  | foul | violation | miscellaneous
deriving DecidableEq

/-- The string value of each `CallCategory` enum member. -/
def CallCategory.toStr : CallCategory → String
  | .foul => "Foul"
  | .violation => "Violation"
  | .miscellaneous => "Miscellaneous"

/-- `interface Call` from `call.ts`: an officiating decision. -/
structure Call where
  id : Seconds
  callName : String
  callCategoryId : CallCategory
deriving DecidableEq

/-- `interface Official` from the event type module. -/
structure Official where
  name : String
  position : Option String
deriving DecidableEq

/-- `interface Event` from the event type module: metadata for the recorded
contest.  All three `Date` fields are real `Date` objects in every in-memory
event the store produces (`updateEvent` constructs them; `loadProject`
explicitly converts the loaded strings back via `new Date`), so they are
modelled directly as instants. -/
structure Event where
  date : Millis
  gender : Gender
  ageLevel : AgeLevel
  sport : Sport
  eventName : Option String
  location : Option String
  homeTeam : Option String
  awayTeam : Option String
  officiatingCrew : List Official
  videoLink : Option String
  notes : Option String
  createdOn : Millis
  modifiedOn : Millis
deriving DecidableEq

/-- `interface Clip` from `clip.ts`: a named time interval plus officiating
annotations.  `createdOn`/`modifiedOn` are `DateLike` because after a load
the runtime values are ISO strings (see `DateLike`). -/
structure Clip where
  id : String
  name : String
  inSeconds : Seconds
  outSeconds : Seconds
  clipIndexNumber : Option Seconds
  period : Option String
  clockTime : Option String
  call : Option Call
  officialPosition : Option String
  officialName : Option String
  callType : Option String
  wasShooting : Option Bool
  wasMultipleWhistles : Option Bool
  wasCorrectDecision : Option String
  wasCorrectOfficialPosition : Option String
  shouldReview : Option Bool
  description : Option String
  tags : Option String
  comments : Option String
  createdOn : DateLike
  modifiedOn : DateLike
deriving DecidableEq

/-- The in-memory state held by `ProjectProvider` (`projectStore.tsx`):
one `useState` hook per field. -/
structure StoreState where
  clips : List Clip
  selectedClipIds : Finset String
  markInTime : Option Seconds
  markOutTime : Option Seconds
  currentTime : Seconds
  playbackSpeed : Seconds
  videoSourcePath : Option String
  currentProjectPath : Option String
  isDirty : Bool
  event : Option Event
  clipDialogOpen : Bool
  clipBeingEdited : Option Clip
deriving DecidableEq

/-- The provider's initial state: every hook's initial value. -/
def initialState : StoreState where
  clips := []
  selectedClipIds := ∅
  markInTime := none
  markOutTime := none
  currentTime := 0
  playbackSpeed := 1
  videoSourcePath := none
  currentProjectPath := none
  isDirty := false
  event := none
  clipDialogOpen := false
  clipBeingEdited := none

/-- `markIn(time?)`: sets the in-mark to `time` (or the current playback
time), and if an out-mark exists and is before the new in-mark, raises the
out-mark to match. -/
def markIn (time : Option Seconds) (s : StoreState) : StoreState :=
  let timeToUse := time.getD s.currentTime
  let s1 := { s with markInTime := some timeToUse }
  match s.markOutTime with
  | some o => if timeToUse > o then { s1 with markOutTime := some timeToUse } else s1
  | none => s1

/-- `markOut(time?)`: sets the out-mark to `time` (or the current playback
time), and if an in-mark exists and is after the new out-mark, lowers the
in-mark to match. -/
def markOut (time : Option Seconds) (s : StoreState) : StoreState :=
  let timeToUse := time.getD s.currentTime
  let s1 := { s with markOutTime := some timeToUse }
  match s.markInTime with
  | some i => if timeToUse < i then { s1 with markInTime := some timeToUse } else s1
  | none => s1

/-- `addClipFromMarks()`: no-op unless both marks are set and the out-mark is
strictly after the in-mark; on success appends a fresh clip and resets the
marks.  `now` models `new Date()` and `newId` models `uniqueId()` (the
time-plus-random generator; uniqueness is a documented invariant of the
generator, not checked by the repository). -/
def addClipFromMarks (now : Millis) (newId : String) (s : StoreState) : StoreState :=
  match s.markInTime, s.markOutTime with
  | some tin, some tout =>
    if tout ≤ tin then s
    else
      let newClip : Clip :=
        { id := newId
          name := "Clip " ++ toString (s.clips.length + 1)
          inSeconds := tin
          outSeconds := tout
          clipIndexNumber := none, period := none, clockTime := none, call := none
          officialPosition := none, officialName := none, callType := none
          wasShooting := none, wasMultipleWhistles := none
          wasCorrectDecision := none, wasCorrectOfficialPosition := none
          shouldReview := none, description := none, tags := none, comments := none
          createdOn := .date now
          modifiedOn := .date now }
      { s with clips := s.clips ++ [newClip], isDirty := true,
               markInTime := none, markOutTime := none }
  | _, _ => s

/-- `clearMarks()`: forces both marks back to unset. -/
def clearMarks (s : StoreState) : StoreState :=
  { s with markInTime := none, markOutTime := none }

/-- `Partial<Clip>`: each required field either absent or supplied; each
optional field either absent or supplied with a possibly-`undefined` value
(object spread copies a present-but-`undefined` key). -/
structure ClipUpdates where
  id : Option String := none
  name : Option String := none
  inSeconds : Option Seconds := none
  outSeconds : Option Seconds := none
  clipIndexNumber : Option (Option Seconds) := none
  period : Option (Option String) := none
  clockTime : Option (Option String) := none
  call : Option (Option Call) := none
  officialPosition : Option (Option String) := none
  officialName : Option (Option String) := none
  callType : Option (Option String) := none
  wasShooting : Option (Option Bool) := none
  wasMultipleWhistles : Option (Option Bool) := none
  wasCorrectDecision : Option (Option String) := none
  wasCorrectOfficialPosition : Option (Option String) := none
  shouldReview : Option (Option Bool) := none
  description : Option (Option String) := none
  tags : Option (Option String) := none
  comments : Option (Option String) := none
  createdOn : Option DateLike := none
  modifiedOn : Option DateLike := none
deriving DecidableEq

/-- The object spread `{ ...clip, ...updates }`: every key present in
`updates` overwrites the clip's value; every absent key is left alone. -/
def Clip.applyUpdates (c : Clip) (u : ClipUpdates) : Clip where
  id := u.id.getD c.id
  name := u.name.getD c.name
  inSeconds := u.inSeconds.getD c.inSeconds
  outSeconds := u.outSeconds.getD c.outSeconds
  clipIndexNumber := u.clipIndexNumber.getD c.clipIndexNumber
  period := u.period.getD c.period
  clockTime := u.clockTime.getD c.clockTime
  call := u.call.getD c.call
  officialPosition := u.officialPosition.getD c.officialPosition
  officialName := u.officialName.getD c.officialName
  callType := u.callType.getD c.callType
  wasShooting := u.wasShooting.getD c.wasShooting
  wasMultipleWhistles := u.wasMultipleWhistles.getD c.wasMultipleWhistles
  wasCorrectDecision := u.wasCorrectDecision.getD c.wasCorrectDecision
  wasCorrectOfficialPosition := u.wasCorrectOfficialPosition.getD c.wasCorrectOfficialPosition
  shouldReview := u.shouldReview.getD c.shouldReview
  description := u.description.getD c.description
  tags := u.tags.getD c.tags
  comments := u.comments.getD c.comments
  createdOn := u.createdOn.getD c.createdOn
  modifiedOn := u.modifiedOn.getD c.modifiedOn

/-- `updateClip(id, updates)`: maps the merge over the clip list (note: the
source merges the supplied fields only; it does not touch `modifiedOn`). -/
def updateClip (id : String) (u : ClipUpdates) (s : StoreState) : StoreState :=
  { s with clips := s.clips.map (fun c => if c.id = id then c.applyUpdates u else c),
           isDirty := true }

/-- `toggleClipSelection(id)`: removes the id from the selection set if
present, inserts it otherwise. -/
def toggleClipSelection (id : String) (s : StoreState) : StoreState :=
  let next := if id ∈ s.selectedClipIds
    then s.selectedClipIds.erase id
    else insert id s.selectedClipIds
  { s with selectedClipIds := next }

/-- `isSelected(id)`: membership in the selection set. -/
def isSelected (id : String) (s : StoreState) : Bool :=
  id ∈ s.selectedClipIds

/-- `addSource(path)`: records the video source path and marks dirty. -/
def addSource (path : String) (s : StoreState) : StoreState :=
  { s with videoSourcePath := some path, isDirty := true }

/-- `Partial<Omit<Event, "createdOn" | "modifiedOn">>`. -/
structure EventUpdates where
  date : Option Millis := none
  gender : Option Gender := none
  ageLevel : Option AgeLevel := none
  sport : Option Sport := none
  eventName : Option (Option String) := none
  location : Option (Option String) := none
  homeTeam : Option (Option String) := none
  awayTeam : Option (Option String) := none
  officiatingCrew : Option (List Official) := none
  videoLink : Option (Option String) := none
  notes : Option (Option String) := none
deriving DecidableEq

/-- `updateEvent(updates)`: merges over an existing event stamping
`modifiedOn = now`, or constructs a fresh event filling `||`-defaults.
The source's `updates.x || default` applies the default exactly when the key
is absent: every supplied `Gender`/`AgeLevel`/`Sport` value is a non-empty
string (truthy), a supplied `Date` object is truthy, and a supplied crew
array is truthy even when empty.  The two `new Date()` calls in the handler
are modelled as the same instant `now`. -/
def updateEvent (u : EventUpdates) (now : Millis) (s : StoreState) : StoreState :=
  match s.event with
  | some e =>
    let merged : Event :=
      { date := u.date.getD e.date
        gender := u.gender.getD e.gender
        ageLevel := u.ageLevel.getD e.ageLevel
        sport := u.sport.getD e.sport
        eventName := u.eventName.getD e.eventName
        location := u.location.getD e.location
        homeTeam := u.homeTeam.getD e.homeTeam
        awayTeam := u.awayTeam.getD e.awayTeam
        officiatingCrew := u.officiatingCrew.getD e.officiatingCrew
        videoLink := u.videoLink.getD e.videoLink
        notes := u.notes.getD e.notes
        createdOn := e.createdOn
        modifiedOn := now }
    { s with isDirty := true, event := some merged }
  | none =>
    let newEvent : Event :=
      { date := u.date.getD now
        gender := u.gender.getD .boys
        ageLevel := u.ageLevel.getD .varsity
        sport := u.sport.getD .basketball
        eventName := u.eventName.join
        location := u.location.join
        homeTeam := u.homeTeam.join
        awayTeam := u.awayTeam.join
        officiatingCrew := u.officiatingCrew.getD []
        videoLink := u.videoLink.join
        notes := u.notes.join
        createdOn := now
        modifiedOn := now }
    { s with isDirty := true, event := some newEvent }

/-- One user-level operation of the mark state machine (the four store
operations the machine comprises). -/
inductive MarkOp where
  | mIn (t : Option Seconds)
  | mOut (t : Option Seconds)
  | addClip (now : Millis) (newId : String)
  | clear

/-- Apply one mark-machine operation to the store state. -/
def applyMarkOp (s : StoreState) (op : MarkOp) : StoreState :=
  match op with
  | .mIn t => markIn t s
  | .mOut t => markOut t s
  | .addClip now newId => addClipFromMarks now newId s
  | .clear => clearMarks s

/-- Apply a sequence of mark-machine operations, left to right. -/
def applyMarkOps (ops : List MarkOp) (s : StoreState) : StoreState :=
  ops.foldl applyMarkOp s

/-- The mark invariant: whenever both marks are set, in ≤ out. -/
def marksOrdered (s : StoreState) : Prop :=
  ∀ a b, s.markInTime = some a → s.markOutTime = some b → a ≤ b

/-- `markIn` always (re-)establishes the mark invariant. -/
lemma markIn_ordered (t : Option Seconds) (s : StoreState) :
    marksOrdered (markIn t s) := by
  intro a b ha hb
  unfold markIn at ha hb
  cases hout : s.markOutTime with
  | none => simp [hout] at ha hb
  | some o =>
    simp only [hout] at ha hb
    split at ha <;> simp_all

/-- `markOut` always (re-)establishes the mark invariant. -/
lemma markOut_ordered (t : Option Seconds) (s : StoreState) :
    marksOrdered (markOut t s) := by
  intro a b ha hb
  unfold markOut at ha hb
  cases hin : s.markInTime with
  | none => simp [hin] at ha hb
  | some i =>
    simp only [hin] at ha hb
    split at ha <;> simp_all

/-- `addClipFromMarks` either leaves the state untouched or clears both
marks (and appends the new clip). -/
lemma addClipFromMarks_cases (now : Millis) (newId : String) (s : StoreState) :
    addClipFromMarks now newId s = s ∨
      ((addClipFromMarks now newId s).markInTime = none ∧
       (addClipFromMarks now newId s).markOutTime = none) := by
  unfold addClipFromMarks
  rcases hi : s.markInTime with _ | tin <;> rcases ho : s.markOutTime with _ | tout <;>
    simp only []
  · exact Or.inl trivial
  · exact Or.inl trivial
  · exact Or.inl trivial
  · split
    · exact Or.inl rfl
    · exact Or.inr ⟨rfl, rfl⟩

/-- Every mark-machine operation preserves the mark invariant. -/
lemma applyMarkOp_ordered (s : StoreState) (op : MarkOp) (h : marksOrdered s) :
    marksOrdered (applyMarkOp s op) := by
  cases op with
  | mIn t => exact markIn_ordered t s
  | mOut t => exact markOut_ordered t s
  | clear => intro a b ha hb; simp [applyMarkOp, clearMarks] at ha
  | addClip now newId =>
    rcases addClipFromMarks_cases now newId s with heq | ⟨h1, h2⟩
    · have h' : applyMarkOp s (.addClip now newId) = s := heq
      rw [h']; exact h
    · intro a b ha hb
      have ha' : (addClipFromMarks now newId s).markInTime = some a := ha
      rw [h1] at ha'
      exact Option.noConfusion ha'

/-- C4: along every sequence of `markIn`/`markOut`/`addClipFromMarks`/
`clearMarks` operations from a state satisfying the mark invariant, whenever
both marks are set, `markInTime ≤ markOutTime`; moreover for `t1 > t2`,
`markIn(t1); markOut(t2)` leaves both marks equal to `t2`, and symmetrically
`markOut(t2); markIn(t1)` raises the out-mark to `t1` (both marks `t1`). -/
theorem c4_marks_invariant :
    (∀ (ops : List MarkOp) (s : StoreState), marksOrdered s →
      marksOrdered (applyMarkOps ops s)) ∧
    (∀ (t1 t2 : Seconds) (s : StoreState), t2 < t1 →
      (markOut (some t2) (markIn (some t1) s)).markInTime = some t2 ∧
      (markOut (some t2) (markIn (some t1) s)).markOutTime = some t2) ∧
    (∀ (t1 t2 : Seconds) (s : StoreState), t2 < t1 →
      (markIn (some t1) (markOut (some t2) s)).markInTime = some t1 ∧
      (markIn (some t1) (markOut (some t2) s)).markOutTime = some t1) := by
  refine ⟨?_, ?_, ?_⟩
  · intro ops
    induction ops with
    | nil => intro s h; exact h
    | cons op rest ih =>
      intro s h
      exact ih (applyMarkOp s op) (applyMarkOp_ordered s op h)
  · intro t1 t2 s h
    have hin : (markIn (some t1) s).markInTime = some t1 := by
      unfold markIn
      cases s.markOutTime <;> simp
      split <;> rfl
    constructor <;>
      · unfold markOut
        rw [hin]
        simp [h]
  · intro t1 t2 s h
    have hout : (markOut (some t2) s).markOutTime = some t2 := by
      unfold markOut
      cases s.markInTime <;> simp
      split <;> rfl
    constructor <;>
      · unfold markIn
        rw [hout]
        simp [h]

/-- Witness for `c4_marks_invariant` at concrete inputs. -/
theorem c4_marks_invariant_witness :
    marksOrdered (applyMarkOps [MarkOp.mIn (some 1), MarkOp.mOut (some 3)] initialState) ∧
    ((markOut (some 1) (markIn (some 2) initialState)).markInTime = some 1 ∧
     (markOut (some 1) (markIn (some 2) initialState)).markOutTime = some 1) ∧
    ((markIn (some 2) (markOut (some 1) initialState)).markInTime = some 2 ∧
     (markIn (some 2) (markOut (some 1) initialState)).markOutTime = some 2) :=
  ⟨c4_marks_invariant.1 [MarkOp.mIn (some 1), MarkOp.mOut (some 3)] initialState
      (by intro a b ha hb; simp [initialState] at ha),
   c4_marks_invariant.2.1 2 1 initialState (by norm_num),
   c4_marks_invariant.2.2 2 1 initialState (by norm_num)⟩

/-- `markIn` with an explicit time always sets the in-mark to that time. -/
lemma markIn_markInTime (t : Seconds) (s : StoreState) :
    (markIn (some t) s).markInTime = some t := by
  unfold markIn
  cases s.markOutTime
  · rfl
  · dsimp only
    split <;> rfl

/-- `markIn` does not touch the clip list. -/
lemma markIn_clips (t : Option Seconds) (s : StoreState) :
    (markIn t s).clips = s.clips := by
  unfold markIn
  cases s.markOutTime
  · rfl
  · dsimp only
    split <;> rfl

/-- `markOut` with an explicit time always sets the out-mark to that time. -/
lemma markOut_markOutTime (t : Seconds) (s : StoreState) :
    (markOut (some t) s).markOutTime = some t := by
  unfold markOut
  cases s.markInTime
  · rfl
  · dsimp only
    split <;> rfl

/-- `markOut` does not touch the clip list. -/
lemma markOut_clips (t : Option Seconds) (s : StoreState) :
    (markOut t s).clips = s.clips := by
  unfold markOut
  cases s.markInTime
  · rfl
  · dsimp only
    split <;> rfl

/-- `markOut` at a time not below the in-mark leaves the in-mark alone. -/
lemma markOut_markInTime_of_not_lt (t i : Seconds) (s : StoreState)
    (hi : s.markInTime = some i) (h : ¬ t < i) :
    (markOut (some t) s).markInTime = some i := by
  unfold markOut
  rw [hi]
  dsimp only
  simp only [Option.getD_some]
  rw [if_neg h]

/-- When both marks are set with `inMark < outMark`, `addClipFromMarks`
appends the new clip, sets the dirty flag and resets the marks. -/
lemma addClipFromMarks_eq (now : Millis) (newId : String) (s : StoreState)
    (tin tout : Seconds) (hi : s.markInTime = some tin)
    (ho : s.markOutTime = some tout) (h : ¬ tout ≤ tin) :
    addClipFromMarks now newId s =
      { s with
        clips := s.clips ++
          [{ id := newId
             name := "Clip " ++ toString (s.clips.length + 1)
             inSeconds := tin
             outSeconds := tout
             clipIndexNumber := none, period := none, clockTime := none, call := none
             officialPosition := none, officialName := none, callType := none
             wasShooting := none, wasMultipleWhistles := none
             wasCorrectDecision := none, wasCorrectOfficialPosition := none
             shouldReview := none, description := none, tags := none, comments := none
             createdOn := .date now
             modifiedOn := .date now }]
        isDirty := true
        markInTime := none
        markOutTime := none } := by
  unfold addClipFromMarks
  rw [hi, ho]
  dsimp only
  rw [if_neg h]

/-- C5: for `t1 < t2`, `markIn(t1); markOut(t2); addClipFromMarks()` appends
exactly one clip `(newId, "Clip n+1", t1, t2, now, now)` (where `n` is the
clip count and `newId` is the output of the `uniqueId` generator, whose
uniqueness is the repository's documented, unchecked invariant) and resets
both marks; and `addClipFromMarks` is a strict no-op (the whole state is
unchanged) when either mark is unset or `outMark ≤ inMark`. -/
theorem c5_addClipFromMarks :
    (∀ (s : StoreState) (t1 t2 : Seconds) (now : Millis) (newId : String), t1 < t2 →
      (addClipFromMarks now newId (markOut (some t2) (markIn (some t1) s))).clips =
        s.clips ++
          [{ id := newId
             name := "Clip " ++ toString (s.clips.length + 1)
             inSeconds := t1
             outSeconds := t2
             clipIndexNumber := none, period := none, clockTime := none, call := none
             officialPosition := none, officialName := none, callType := none
             wasShooting := none, wasMultipleWhistles := none
             wasCorrectDecision := none, wasCorrectOfficialPosition := none
             shouldReview := none, description := none, tags := none, comments := none
             createdOn := .date now
             modifiedOn := .date now }] ∧
      (addClipFromMarks now newId (markOut (some t2) (markIn (some t1) s))).markInTime = none ∧
      (addClipFromMarks now newId (markOut (some t2) (markIn (some t1) s))).markOutTime = none) ∧
    (∀ (s : StoreState) (now : Millis) (newId : String),
      (s.markInTime = none ∨ s.markOutTime = none ∨
        ∃ a b, s.markInTime = some a ∧ s.markOutTime = some b ∧ b ≤ a) →
      addClipFromMarks now newId s = s) := by
  constructor
  · intro s t1 t2 now newId h
    have h1 : (markIn (some t1) s).markInTime = some t1 := markIn_markInTime t1 s
    have h3 : (markOut (some t2) (markIn (some t1) s)).markInTime = some t1 :=
      markOut_markInTime_of_not_lt t2 t1 _ h1 (not_lt.mpr h.le)
    have h2 : (markOut (some t2) (markIn (some t1) s)).markOutTime = some t2 :=
      markOut_markOutTime t2 _
    have h4 : (markOut (some t2) (markIn (some t1) s)).clips = s.clips :=
      (markOut_clips _ _).trans (markIn_clips _ _)
    rw [addClipFromMarks_eq now newId _ t1 t2 h3 h2 (not_le.mpr h)]
    refine ⟨?_, rfl, rfl⟩
    dsimp only
    rw [h4]
  · intro s now newId hcase
    unfold addClipFromMarks
    rcases hcase with h | h | ⟨a, b, ha, hb, hba⟩
    · rw [h]
    · rw [h]
      cases hi : s.markInTime <;> rfl
    · rw [ha, hb]
      dsimp only
      rw [if_pos hba]

/-- Witness for `c5_addClipFromMarks` at concrete inputs. -/
theorem c5_addClipFromMarks_witness :
    ((addClipFromMarks 7 "id1" (markOut (some 4) (markIn (some 3) initialState))).clips =
      initialState.clips ++
        [{ id := "id1"
           name := "Clip " ++ toString (initialState.clips.length + 1)
           inSeconds := 3
           outSeconds := 4
           clipIndexNumber := none, period := none, clockTime := none, call := none
           officialPosition := none, officialName := none, callType := none
           wasShooting := none, wasMultipleWhistles := none
           wasCorrectDecision := none, wasCorrectOfficialPosition := none
           shouldReview := none, description := none, tags := none, comments := none
           createdOn := .date 7
           modifiedOn := .date 7 }] ∧
     (addClipFromMarks 7 "id1" (markOut (some 4) (markIn (some 3) initialState))).markInTime = none ∧
     (addClipFromMarks 7 "id1" (markOut (some 4) (markIn (some 3) initialState))).markOutTime = none) ∧
    addClipFromMarks 7 "id1" initialState = initialState :=
  ⟨c5_addClipFromMarks.1 initialState 3 4 7 "id1" (by norm_num),
   c5_addClipFromMarks.2 initialState 7 "id1" (Or.inl rfl)⟩

/-- C10: toggling a clip id twice restores the entire store state, a single
toggle negates `isSelected(id)`, and a toggle never touches the clip list. -/
theorem c10_toggle_involution (s : StoreState) (id : String) :
    toggleClipSelection id (toggleClipSelection id s) = s ∧
    isSelected id (toggleClipSelection id s) = !(isSelected id s) ∧
    (toggleClipSelection id s).clips = s.clips := by
  by_cases h : id ∈ s.selectedClipIds
  · refine ⟨?_, ?_, rfl⟩
    · simp only [toggleClipSelection, h, if_true]
      have h2 : id ∉ s.selectedClipIds.erase id := Finset.not_mem_erase id _
      simp only [h2, if_false, if_neg h2]
      rw [Finset.insert_erase h]
    · simp [toggleClipSelection, isSelected, h]
  · refine ⟨?_, ?_, rfl⟩
    · simp only [toggleClipSelection, h, if_false, if_neg h]
      have h2 : id ∈ insert id s.selectedClipIds := Finset.mem_insert_self id _
      simp only [h2, if_true, if_pos h2]
      rw [Finset.erase_insert h]
    · simp [toggleClipSelection, isSelected, h]

/-- The concrete clip used to exhibit the `updateClip` timestamp bug. -/
def c6Clip : Clip where
  id := "c1"
  name := "Travel"
  inSeconds := 342.5
  outSeconds := 348.2
  clipIndexNumber := none
  period := none
  clockTime := none
  call := none
  officialPosition := none
  officialName := none
  callType := none
  wasShooting := none
  wasMultipleWhistles := none
  wasCorrectDecision := none
  wasCorrectOfficialPosition := none
  shouldReview := none
  description := none
  tags := none
  comments := none
  createdOn := .date 500
  modifiedOn := .date 500

/-- C6 (bug evaluation): `updateClip("c1", \x7bname := "Renamed"\x7d)` on a
repository holding exactly `c6Clip` merges the supplied field only: the
resulting clip keeps `modifiedOn = Date(500)`, its creation-time stamp, no
matter when the update runs.  The claim (and the `Clip.modifiedOn`
documentation in `clip.ts`, which says the field is updated whenever any
field changes — as the sibling paths `saveClipFromDialog` and `updateEvent`
indeed do) requires `modifiedOn` to be stamped to the update time; the
source of `updateClip` never touches it. -/
theorem c6_updateClip_keeps_modifiedOn :
    (updateClip "c1" { name := some "Renamed" }
        { initialState with clips := [c6Clip] }).clips =
      [{ c6Clip with name := "Renamed" }] ∧
    ({ c6Clip with name := "Renamed" } : Clip).modifiedOn = DateLike.date 500 ∧
    ({ c6Clip with name := "Renamed" } : Clip).inSeconds = c6Clip.inSeconds ∧
    ({ c6Clip with name := "Renamed" } : Clip).outSeconds = c6Clip.outSeconds ∧
    ({ c6Clip with name := "Renamed" } : Clip).id = c6Clip.id := by
  refine ⟨?_, rfl, rfl, rfl, rfl⟩
  simp [updateClip, Clip.applyUpdates, c6Clip]

/-- C8: `updateEvent(partial)` with no existing event constructs one filling
each absent field with its documented default (`gender = boys`,
`ageLevel = Varsity`, `sport = basketball`, empty crew; an absent date gets
the current instant) and stamps `createdOn = modifiedOn = now`; with an
existing event it merges the partial over it, stamps `modifiedOn = now`, and
leaves `createdOn` (and every unsupplied field) unchanged. -/
theorem c8_updateEvent :
    (∀ (s : StoreState) (u : EventUpdates) (now : Millis), s.event = none →
      (updateEvent u now s).event = some
        { date := u.date.getD now
          gender := u.gender.getD .boys
          ageLevel := u.ageLevel.getD .varsity
          sport := u.sport.getD .basketball
          eventName := u.eventName.join
          location := u.location.join
          homeTeam := u.homeTeam.join
          awayTeam := u.awayTeam.join
          officiatingCrew := u.officiatingCrew.getD []
          videoLink := u.videoLink.join
          notes := u.notes.join
          createdOn := now
          modifiedOn := now }) ∧
    (∀ (s : StoreState) (e : Event) (u : EventUpdates) (now : Millis), s.event = some e →
      (updateEvent u now s).event = some
        { date := u.date.getD e.date
          gender := u.gender.getD e.gender
          ageLevel := u.ageLevel.getD e.ageLevel
          sport := u.sport.getD e.sport
          eventName := u.eventName.getD e.eventName
          location := u.location.getD e.location
          homeTeam := u.homeTeam.getD e.homeTeam
          awayTeam := u.awayTeam.getD e.awayTeam
          officiatingCrew := u.officiatingCrew.getD e.officiatingCrew
          videoLink := u.videoLink.getD e.videoLink
          notes := u.notes.getD e.notes
          createdOn := e.createdOn
          modifiedOn := now }) := by
  constructor
  · intro s u now h
    unfold updateEvent
    rw [h]
  · intro s e u now h
    unfold updateEvent
    rw [h]

/-- A concrete event used by the `c8` witness. -/
def c8SampleEvent : Event where
  date := 100
  gender := .girls
  ageLevel := .jv
  sport := .volleyball
  eventName := some "Regional"
  location := none
  homeTeam := some "A"
  awayTeam := some "B"
  officiatingCrew := [{ name := "John Smith", position := some "Referee" }]
  videoLink := none
  notes := none
  createdOn := 50
  modifiedOn := 60

/-- Witness for `c8_updateEvent` at concrete inputs: an empty partial on a
fresh store, and a gender-only partial over an existing event. -/
theorem c8_updateEvent_witness :
    (updateEvent {} 7 initialState).event = some
      { date := ({} : EventUpdates).date.getD 7
        gender := ({} : EventUpdates).gender.getD .boys
        ageLevel := ({} : EventUpdates).ageLevel.getD .varsity
        sport := ({} : EventUpdates).sport.getD .basketball
        eventName := ({} : EventUpdates).eventName.join
        location := ({} : EventUpdates).location.join
        homeTeam := ({} : EventUpdates).homeTeam.join
        awayTeam := ({} : EventUpdates).awayTeam.join
        officiatingCrew := ({} : EventUpdates).officiatingCrew.getD []
        videoLink := ({} : EventUpdates).videoLink.join
        notes := ({} : EventUpdates).notes.join
        createdOn := 7
        modifiedOn := 7 } ∧
    (updateEvent { gender := some .coed } 9
        { initialState with event := some c8SampleEvent }).event =
      some ({ c8SampleEvent with gender := .coed, modifiedOn := 9 }) :=
  ⟨c8_updateEvent.1 initialState {} 7 rfl,
   c8_updateEvent.2 _ c8SampleEvent { gender := some .coed } 9 rfl⟩

/-- A JS runtime value, as far as the persistence layer can observe one.
`jiso ms` models a string produced by `Date.prototype.toISOString` from the
instant `ms` (the ECMAScript standard makes `new Date` parsing of such a
string return exactly `ms`, so the abstract token carries the instant
instead of the platform's text rendering); `jdate ms` models a valid `Date`
object and `jdateInvalid` an Invalid Date. -/
inductive JsVal where
  | jundefined
  | jnull
  | jbool (b : Bool)
  | jnum (q : ℚ)
  | jstr (s : String)
  | jiso (ms : Millis)
  | jdate (ms : Millis)
  | jdateInvalid
  | jarr (elems : List JsVal)
  | jobj (fields : List (String × JsVal))

/-- First-match lookup of a key in an object's field list. -/
def lookupField (k : String) : List (String × JsVal) → JsVal
  | [] => .jundefined
  | (k', v) :: rest => if k = k' then v else lookupField k rest

/-- Property access `v.k`: `undefined` on missing keys and non-objects (the
field names this code reads never collide with array/Date built-ins). -/
def jsGetField (v : JsVal) (k : String) : JsVal :=
  match v with
  | .jobj fields => lookupField k fields
  | _ => .jundefined

/-- `typeof v === "string"` (an ISO date-time string is a string). -/
def jsTypeofString : JsVal → Bool
  | .jstr _ => true
  | .jiso _ => true
  | _ => false

/-- `typeof v === "number"`. -/
def jsTypeofNumber : JsVal → Bool
  | .jnum _ => true
  | _ => false

/-- `typeof v === "object" && v !== null` (arrays and Dates included). -/
def jsIsObjectNonNull : JsVal → Bool
  | .jobj _ => true
  | .jarr _ => true
  | .jdate _ => true
  | .jdateInvalid => true
  | _ => false

/-- JS truthiness of a runtime value. -/
def jsTruthy : JsVal → Bool
  | .jundefined => false
  | .jnull => false
  | .jbool b => b
  | .jnum q => decide (q ≠ 0)
  | .jstr s => decide (s ≠ "")
  | .jiso _ => true
  | .jdate _ => true
  | .jdateInvalid => true
  | .jarr _ => true
  | .jobj _ => true

/-- `PROJECT_FILE_VERSION` from `project.ts`. -/
def PROJECT_FILE_VERSION : String := "2.0.0"

/-- `isSupportedVersion(version)` from `project.ts`: exact match only. -/
def isSupportedVersion (version : String) : Bool :=
  version == PROJECT_FILE_VERSION

/-- The strict equality `data.version === PROJECT_FILE_VERSION` applied to
the runtime value: only an ordinary string can match (an ISO date-time
string — a calendar-formatted text — is never the literal `"2.0.0"`). -/
def jsIsSupportedVersion : JsVal → Bool
  | .jstr s => isSupportedVersion s
  | _ => false

/-- The per-clip shape check inside `isValidProjectData`: string `id` and
`name`, numeric `inSeconds` and `outSeconds`. -/
def isValidClipShape (clip : JsVal) : Bool :=
  jsIsObjectNonNull clip &&
  jsTypeofString (jsGetField clip "id") &&
  jsTypeofString (jsGetField clip "name") &&
  jsTypeofNumber (jsGetField clip "inSeconds") &&
  jsTypeofNumber (jsGetField clip "outSeconds")

/-- `isValidProjectData(data)` from `project.ts`: the minimal structural
gate on untrusted parsed JSON. -/
def isValidProjectData (data : JsVal) : Bool :=
  jsIsObjectNonNull data &&
  (jsTypeofString (jsGetField data "version") &&
   jsTypeofString (jsGetField data "appVersion") &&
   jsTypeofString (jsGetField data "created") &&
   jsTypeofString (jsGetField data "modified")) &&
  (jsIsObjectNonNull (jsGetField data "videoSource") &&
   jsTypeofString (jsGetField (jsGetField data "videoSource") "path")) &&
  (match jsGetField data "clips" with
   | .jarr clips => clips.all isValidClipShape
   | _ => false)

/-- JS whitespace for `String.prototype.trim` (the characters relevant to
this development; the full Unicode white-space set adds only more cases of
the same shape). -/
def isJsWhitespace (c : Char) : Bool :=
  c = ' ' || c = '\t' || c = '\n' || c = '\r' || c = '\x0b' || c = '\x0c'

/-- A kernel-computable model of `String.prototype.trim`: drop leading and
trailing whitespace. -/
def jsTrim (s : String) : String :=
  ⟨((s.data.dropWhile isJsWhitespace).reverse.dropWhile isJsWhitespace).reverse⟩

/-- `x instanceof Date && !isNaN(x.getTime())`: a valid `Date` object (an
Invalid Date passes `instanceof` but fails the `isNaN` test). -/
def isValidDateObject : JsVal → Bool
  | .jdate _ => true
  | _ => false

/-- `Object.values(Gender).includes(x)`. -/
def isGenderValue : JsVal → Bool
  | .jstr s => s == "boys" || s == "girls" || s == "coed"
  | _ => false

/-- `Object.values(AgeLevel).includes(x)`. -/
def isAgeLevelValue : JsVal → Bool
  | .jstr s => s == "JV" || s == "Varsity" || s == "NCAA Div 3"
  | _ => false

/-- `Object.values(Sport).includes(x)`. -/
def isSportValue : JsVal → Bool
  | .jstr s => s == "basketball" || s == "football" || s == "volleyball"
  | _ => false

/-- The check applied to each optional string field of an event:
valid iff absent, or a string that is non-empty after trimming. -/
def optNonEmptyStringOk : JsVal → Bool
  | .jundefined => true
  | .jstr s => decide (jsTrim s ≠ "")
  | .jiso _ => true
  | _ => false

/-- JS strict equality `===` restricted to the primitive cases this code
compares.  Distinct objects compare unequal (reference equality); an ISO
date-time token is compared only against another ISO token, by instant (two
`toISOString` outputs coincide exactly when their instants do). -/
def jsStrictEq : JsVal → JsVal → Bool
  | .jundefined, .jundefined => true
  | .jnull, .jnull => true
  | .jbool a, .jbool b => a == b
  | .jnum a, .jnum b => a == b
  | .jstr a, .jstr b => a == b
  | .jiso a, .jiso b => a == b
  | _, _ => false

/-- `isValidOfficial(obj)` from the event type module. -/
def isValidOfficial (obj : JsVal) : Bool :=
  jsIsObjectNonNull obj &&
  (match jsGetField obj "name" with
   | .jstr s => decide (jsTrim s ≠ "")
   | .jiso _ => true
   | _ => false) &&
  (match jsGetField obj "position" with
   | .jundefined => true
   | .jstr _ => true
   | .jiso _ => true
   | _ => false)

/-- `isValidEvent(obj)` from the event type module, check for check in
source order.  Note that `videoLink` undergoes only the non-empty-string
check shared by the other optional string fields: no URL-syntax check
appears anywhere in the validator. -/
def isValidEvent (obj : JsVal) : Bool :=
  jsIsObjectNonNull obj &&
  isValidDateObject (jsGetField obj "date") &&
  isGenderValue (jsGetField obj "gender") &&
  isAgeLevelValue (jsGetField obj "ageLevel") &&
  isSportValue (jsGetField obj "sport") &&
  optNonEmptyStringOk (jsGetField obj "eventName") &&
  optNonEmptyStringOk (jsGetField obj "location") &&
  optNonEmptyStringOk (jsGetField obj "homeTeam") &&
  optNonEmptyStringOk (jsGetField obj "awayTeam") &&
  optNonEmptyStringOk (jsGetField obj "videoLink") &&
  !(jsTruthy (jsGetField obj "homeTeam") && jsTruthy (jsGetField obj "awayTeam") &&
    jsStrictEq (jsGetField obj "homeTeam") (jsGetField obj "awayTeam")) &&
  (match jsGetField obj "officiatingCrew" with
   | .jarr crew => !crew.isEmpty && crew.all isValidOfficial
   | _ => false) &&
  (match jsGetField obj "notes" with
   | .jundefined => true
   | .jstr _ => true
   | .jiso _ => true
   | _ => false) &&
  isValidDateObject (jsGetField obj "createdOn") &&
  isValidDateObject (jsGetField obj "modifiedOn") &&
  (match jsGetField obj "createdOn", jsGetField obj "modifiedOn" with
   | .jdate co, .jdate mo => !(mo < co)
   | _, _ => false)

mutual
/-- `JSON.stringify(x)` viewed as the JSON document it writes: `Date`
objects serialize through `toJSON` to their ISO strings (Invalid Dates to
`null`), object fields whose value stringifies to `undefined` are dropped,
and `undefined` array elements become `null`. -/
def jsonStringifyVal : JsVal → JsVal
  | .jundefined => .jundefined
  | .jnull => .jnull
  | .jbool b => .jbool b
  | .jnum q => .jnum q
  | .jstr s => .jstr s
  | .jiso ms => .jiso ms
  | .jdate ms => .jiso ms
  | .jdateInvalid => .jnull
  | .jarr xs => .jarr (jsonStringifyElems xs)
  | .jobj fs => .jobj (jsonStringifyFields fs)

/-- Array elements under `JSON.stringify`. -/
def jsonStringifyElems : List JsVal → List JsVal
  | [] => []
  | x :: rest =>
    (match jsonStringifyVal x with
     | .jundefined => .jnull
     | v => v) :: jsonStringifyElems rest

/-- Object fields under `JSON.stringify`. -/
def jsonStringifyFields : List (String × JsVal) → List (String × JsVal)
  | [] => []
  | (k, v) :: rest =>
    match jsonStringifyVal v with
    | .jundefined => jsonStringifyFields rest
    | v' => (k, v') :: jsonStringifyFields rest
end

/-- One optional field of a runtime object: absent when the in-memory value
is absent (an absent key and a present-but-`undefined` key are
indistinguishable to every consumer on these code paths: both read back as
`undefined` and both are dropped by `JSON.stringify`). -/
def optFieldJs (k : String) (f : α → JsVal) : Option α → List (String × JsVal)
  | none => []
  | some v => [(k, f v)]

/-- The runtime object for a `Call`. -/
def Call.toJs (c : Call) : JsVal :=
  .jobj [("id", .jnum c.id), ("callName", .jstr c.callName),
         ("callCategoryId", .jstr c.callCategoryId.toStr)]

/-- The runtime value in a clip's `Date`-typed field. -/
def DateLike.toJs : DateLike → JsVal
  | .date ms => .jdate ms
  | .isoStr ms => .jiso ms

/-- The runtime object for an `Official`. -/
def Official.toJs (o : Official) : JsVal :=
  .jobj ([("name", .jstr o.name)] ++ optFieldJs "position" .jstr o.position)

/-- The runtime object for an `Event` as `saveProject` builds it (the
`instanceof Date` guards are identities there: every in-memory event holds
real `Date` objects). -/
def Event.toJs (e : Event) : JsVal :=
  .jobj ([("date", .jdate e.date),
          ("gender", .jstr e.gender.toStr),
          ("ageLevel", .jstr e.ageLevel.toStr),
          ("sport", .jstr e.sport.toStr)] ++
         optFieldJs "eventName" .jstr e.eventName ++
         optFieldJs "location" .jstr e.location ++
         optFieldJs "homeTeam" .jstr e.homeTeam ++
         optFieldJs "awayTeam" .jstr e.awayTeam ++
         [("officiatingCrew", .jarr (e.officiatingCrew.map Official.toJs))] ++
         optFieldJs "videoLink" .jstr e.videoLink ++
         optFieldJs "notes" .jstr e.notes ++
         [("createdOn", .jdate e.createdOn),
          ("modifiedOn", .jdate e.modifiedOn)])

/-- The runtime object for a `Clip`. -/
def Clip.toJs (c : Clip) : JsVal :=
  .jobj ([("id", .jstr c.id),
          ("name", .jstr c.name),
          ("inSeconds", .jnum c.inSeconds),
          ("outSeconds", .jnum c.outSeconds)] ++
         optFieldJs "clipIndexNumber" .jnum c.clipIndexNumber ++
         optFieldJs "period" .jstr c.period ++
         optFieldJs "clockTime" .jstr c.clockTime ++
         optFieldJs "call" Call.toJs c.call ++
         optFieldJs "officialPosition" .jstr c.officialPosition ++
         optFieldJs "officialName" .jstr c.officialName ++
         optFieldJs "callType" .jstr c.callType ++
         optFieldJs "wasShooting" .jbool c.wasShooting ++
         optFieldJs "wasMultipleWhistles" .jbool c.wasMultipleWhistles ++
         optFieldJs "wasCorrectDecision" .jstr c.wasCorrectDecision ++
         optFieldJs "wasCorrectOfficialPosition" .jstr c.wasCorrectOfficialPosition ++
         optFieldJs "shouldReview" .jbool c.shouldReview ++
         optFieldJs "description" .jstr c.description ++
         optFieldJs "tags" .jstr c.tags ++
         optFieldJs "comments" .jstr c.comments ++
         [("createdOn", c.createdOn.toJs),
          ("modifiedOn", c.modifiedOn.toJs)])

/-- `interface ProjectData` as `saveProject` populates it (the `created`
and `modified` fields hold `new Date().toISOString()` of the save instant;
the conditional for `created` produces the same value in both branches). -/
structure ProjectData where
  version : String
  appVersion : String
  created : Millis
  modified : Millis
  videoSourcePath : String
  event : Option Event
  clips : List Clip

/-- The runtime object for a `ProjectData`. -/
def ProjectData.toJs (pd : ProjectData) : JsVal :=
  .jobj ([("version", .jstr pd.version),
          ("appVersion", .jstr pd.appVersion),
          ("created", .jiso pd.created),
          ("modified", .jiso pd.modified),
          ("videoSource", .jobj [("path", .jstr pd.videoSourcePath)])] ++
         optFieldJs "event" Event.toJs pd.event ++
         [("clips", .jarr (pd.clips.map Clip.toJs))])

/-- The `FileResult` shape returned by the file I/O collaborator. -/
structure FileResult where
  success : Bool
  content : Option String
  error : Option String

/-- Template interpolation of a possibly-`undefined` value into an alert
message (an `undefined` interpolates as the text "undefined"). -/
def strOfOpt : Option String → String
  | some s => s
  | none => "undefined"

/-- JS truthiness of `result.content` (`undefined` and the empty string are
falsy). -/
def jsTruthyStr : Option String → Bool
  | some s => decide (s ≠ "")
  | none => false

/-- The collaborator outcomes `saveProject` can consume: the save dialog's
answer (consulted only when the project has no path yet) and the file
write's result. -/
structure SaveEnv where
  saveDialog : Option String
  writeResult : FileResult

/-- What one `saveProject` call did: the final state, the alerts raised,
whether the save dialog was opened, and the attempted write (target path
and written document, as the JSON value the written text denotes), if the
call reached the write. -/
structure SaveOutcome where
  state : StoreState
  alerts : List String
  dialogOpened : Bool
  written : Option (String × JsVal)

/-- A JS `Date` object is always truthy, so the defensive `!event.date`
check in `saveProject` can never fire on an in-memory event (whose `date`
field always holds a `Date`). -/
def dateObjectTruthy (_ : Millis) : Bool := true

/-- The document `saveProject` writes, given the save instant, the video
source path, the event and the clip list: the `ProjectData` object
serialized by `JSON.stringify` (the written text parses back to exactly
this JSON value). -/
def saveDocOf (now : Millis) (videoSourcePath : String) (event : Event)
    (clips : List Clip) : JsVal :=
  jsonStringifyVal (ProjectData.toJs
    { version := PROJECT_FILE_VERSION
      appVersion := "1.0.0"
      created := now
      modified := now
      videoSourcePath := videoSourcePath
      event := some event
      clips := clips })

/-- The tail of `saveProject` from the point where a save path is known:
builds the document from the closure values (`clips`, `event`,
`videoSourcePath` of the current render) and delegates the write; on
success clears the dirty flag, on failure alerts with the collaborator's
error.  `s'` is the state after the possible `setCurrentProjectPath`. -/
def saveProjectWrite (env : SaveEnv) (now : Millis) (videoSourcePath : String)
    (event : Event) (clips : List Clip) (savePath : String) (s' : StoreState)
    (dialogOpened : Bool) : SaveOutcome :=
  let doc := saveDocOf now videoSourcePath event clips
  if env.writeResult.success then
    { state := { s' with isDirty := false }
      alerts := []
      dialogOpened := dialogOpened
      written := some (savePath, doc) }
  else
    { state := s'
      alerts := ["Failed to save project: " ++ strOfOpt env.writeResult.error]
      dialogOpened := dialogOpened
      written := some (savePath, doc) }

/-- `saveProject()`: validation guards, path determination (dialog only on
a first save, with `setCurrentProjectPath` before the write), document
build, write, and dirty-flag handling. -/
def saveProject (env : SaveEnv) (now : Millis) (s : StoreState) : SaveOutcome :=
  match s.videoSourcePath with
  | none =>
    { state := s, alerts := ["No video source loaded. Please open a video first."]
      dialogOpened := false, written := none }
  | some videoSourcePath =>
    match s.event with
    | none =>
      { state := s, alerts := ["Please fill out the Event Details before saving."]
        dialogOpened := false, written := none }
    | some event =>
      if ¬ dateObjectTruthy event.date then
        { state := s, alerts := ["Event date is required. Please fill out the Event Details."]
          dialogOpened := false, written := none }
      else if event.officiatingCrew.isEmpty then
        { state := s
          alerts := ["At least one official is required. Please fill out the Event Details."]
          dialogOpened := false, written := none }
      else
        match s.currentProjectPath with
        | some savePath =>
          saveProjectWrite env now videoSourcePath event s.clips savePath s false
        | none =>
          match env.saveDialog with
          | none => { state := s, alerts := [], dialogOpened := true, written := none }
          | some savePath =>
            saveProjectWrite env now videoSourcePath event s.clips savePath
              { s with currentProjectPath := some savePath } true

/-- The collaborator outcomes `loadProject` can consume: the open dialog's
answer, the file read's result, the outcome of `JSON.parse` on the read
content (`none` models a parse exception), and whether the referenced
video file exists. -/
structure LoadEnv where
  openDialog : Option String
  readResult : FileResult
  parsed : Option JsVal
  fileExists : Bool

/-- What one `loadProject` call did: the final state, the alerts raised,
and the TS return value (the document's `videoSource.path` value on
success, `null` otherwise). -/
structure LoadOutcome where
  state : StoreState
  alerts : List String
  result : Option JsVal

/-- Rendering of a runtime value interpolated into an alert message.  On
every path that interpolates, the value is a string; for an ordinary string
the rendering is exact, and for an abstract ISO token we emit a placeholder
(no claim depends on that text). -/
def jsDisplay : JsVal → String
  | .jstr s => s
  | .jiso ms => "iso-date-time(" ++ toString ms ++ ")"
  | _ => "(non-string value)"

/-- Enum decoding used by the typed view of a committed event. -/
def Gender.ofStr? : String → Option Gender
  | "boys" => some .boys
  | "girls" => some .girls
  | "coed" => some .coed
  | _ => none

/-- Enum decoding used by the typed view of a committed event. -/
def AgeLevel.ofStr? : String → Option AgeLevel
  | "JV" => some .jv
  | "Varsity" => some .varsity
  | "NCAA Div 3" => some .ncaaDiv3
  | _ => none

/-- Enum decoding used by the typed view of a committed event. -/
def Sport.ofStr? : String → Option Sport
  | "basketball" => some .basketball
  | "football" => some .football
  | "volleyball" => some .volleyball
  | _ => none

/-- Enum decoding used by the typed view of a committed clip's call. -/
def CallCategory.ofStr? : String → Option CallCategory
  | "Foul" => some .foul
  | "Violation" => some .violation
  | "Miscellaneous" => some .miscellaneous
  | _ => none

/-- Typed view of a runtime value sitting in a required string field. -/
def decodeStr? : JsVal → Option String
  | .jstr s => some s
  | _ => none

/-- Typed view of a runtime value sitting in an optional string field
(`undefined` reads back as absent). -/
def decodeOptStr : JsVal → Option (Option String)
  | .jundefined => some none
  | .jstr s => some (some s)
  | _ => none

/-- Typed view of a runtime value sitting in a required number field. -/
def decodeNum? : JsVal → Option ℚ
  | .jnum q => some q
  | _ => none

/-- Typed view of a runtime value sitting in an optional number field. -/
def decodeOptNum : JsVal → Option (Option ℚ)
  | .jundefined => some none
  | .jnum q => some (some q)
  | _ => none

/-- Typed view of a runtime value sitting in an optional boolean field. -/
def decodeOptBool : JsVal → Option (Option Bool)
  | .jundefined => some none
  | .jbool b => some (some b)
  | _ => none

/-- Typed view of a runtime value sitting in a `Date`-typed clip field:
after a load it is the file's ISO string, kept as-is by the code. -/
def decodeDateLike : JsVal → Option DateLike
  | .jdate ms => some (.date ms)
  | .jiso ms => some (.isoStr ms)
  | _ => none

/-- Typed view of a runtime object sitting in a clip's `call` field. -/
def Call.ofJs? (v : JsVal) : Option Call := do
  let id ← decodeNum? (jsGetField v "id")
  let callName ← decodeStr? (jsGetField v "callName")
  let callCategoryId ← (match jsGetField v "callCategoryId" with
    | .jstr s => CallCategory.ofStr? s
    | _ => none)
  pure { id := id, callName := callName, callCategoryId := callCategoryId }

/-- Typed view of a runtime value sitting in an optional `Call` field. -/
def decodeOptCall : JsVal → Option (Option Call)
  | .jundefined => some none
  | v => (Call.ofJs? v).map some

/-- Typed view of a runtime object sitting in an `officiatingCrew` entry. -/
def Official.ofJs? (v : JsVal) : Option Official := do
  let name ← decodeStr? (jsGetField v "name")
  let position ← decodeOptStr (jsGetField v "position")
  pure { name := name, position := position }

/-- Typed view, at the `Clip` type, of one parsed clip object as
`setClips(data.clips)` commits it: every field is read exactly as a
`Clip`-typed consumer would read the raw object.  On the documents written
by `saveProject` — the only documents any claim commits — every element
decodes. -/
def Clip.ofJs? (v : JsVal) : Option Clip :=
  match decodeStr? (jsGetField v "id") with
  | none => none
  | some id =>
  match decodeStr? (jsGetField v "name") with
  | none => none
  | some name =>
  match decodeNum? (jsGetField v "inSeconds") with
  | none => none
  | some inSeconds =>
  match decodeNum? (jsGetField v "outSeconds") with
  | none => none
  | some outSeconds =>
  match decodeOptNum (jsGetField v "clipIndexNumber") with
  | none => none
  | some clipIndexNumber =>
  match decodeOptStr (jsGetField v "period") with
  | none => none
  | some period =>
  match decodeOptStr (jsGetField v "clockTime") with
  | none => none
  | some clockTime =>
  match decodeOptCall (jsGetField v "call") with
  | none => none
  | some call =>
  match decodeOptStr (jsGetField v "officialPosition") with
  | none => none
  | some officialPosition =>
  match decodeOptStr (jsGetField v "officialName") with
  | none => none
  | some officialName =>
  match decodeOptStr (jsGetField v "callType") with
  | none => none
  | some callType =>
  match decodeOptBool (jsGetField v "wasShooting") with
  | none => none
  | some wasShooting =>
  match decodeOptBool (jsGetField v "wasMultipleWhistles") with
  | none => none
  | some wasMultipleWhistles =>
  match decodeOptStr (jsGetField v "wasCorrectDecision") with
  | none => none
  | some wasCorrectDecision =>
  match decodeOptStr (jsGetField v "wasCorrectOfficialPosition") with
  | none => none
  | some wasCorrectOfficialPosition =>
  match decodeOptBool (jsGetField v "shouldReview") with
  | none => none
  | some shouldReview =>
  match decodeOptStr (jsGetField v "description") with
  | none => none
  | some description =>
  match decodeOptStr (jsGetField v "tags") with
  | none => none
  | some tags =>
  match decodeOptStr (jsGetField v "comments") with
  | none => none
  | some comments =>
  match decodeDateLike (jsGetField v "createdOn") with
  | none => none
  | some createdOn =>
  match decodeDateLike (jsGetField v "modifiedOn") with
  | none => none
  | some modifiedOn =>
  some (Clip.mk id name inSeconds outSeconds clipIndexNumber period clockTime call
    officialPosition officialName callType wasShooting wasMultipleWhistles
    wasCorrectDecision wasCorrectOfficialPosition shouldReview description tags
    comments createdOn modifiedOn)

/-- `new Date(x)` on the inputs this code path can produce: an ISO string
parses back to its instant (ECMAScript guarantee) and a `Date` is copied.
Other coercions (numbers, arbitrary strings) are platform behavior never
reached by the claims; they decode to `none` (treated as undecodable). -/
def jsNewDate : JsVal → Option Millis
  | .jiso ms => some ms
  | .jdate ms => some ms
  | _ => none

/-- Typed view of the raw crew array, element by element. -/
def decodeOfficials : List JsVal → Option (List Official)
  | [] => some []
  | v :: rest =>
    match Official.ofJs? v with
    | none => none
    | some o =>
      match decodeOfficials rest with
      | none => none
      | some os => some (o :: os)

/-- Typed view, at the `Event` type, of the object
`{...data.event, date: new Date(...), createdOn: new Date(...),
modifiedOn: new Date(...)}` that `loadProject` commits. -/
def Event.ofJs? (v : JsVal) : Option Event :=
  match jsNewDate (jsGetField v "date") with
  | none => none
  | some date =>
  match (match jsGetField v "gender" with | .jstr s => Gender.ofStr? s | _ => none) with
  | none => none
  | some gender =>
  match (match jsGetField v "ageLevel" with | .jstr s => AgeLevel.ofStr? s | _ => none) with
  | none => none
  | some ageLevel =>
  match (match jsGetField v "sport" with | .jstr s => Sport.ofStr? s | _ => none) with
  | none => none
  | some sport =>
  match decodeOptStr (jsGetField v "eventName") with
  | none => none
  | some eventName =>
  match decodeOptStr (jsGetField v "location") with
  | none => none
  | some location =>
  match decodeOptStr (jsGetField v "homeTeam") with
  | none => none
  | some homeTeam =>
  match decodeOptStr (jsGetField v "awayTeam") with
  | none => none
  | some awayTeam =>
  match (match jsGetField v "officiatingCrew" with
         | .jarr xs => decodeOfficials xs
         | _ => none) with
  | none => none
  | some officiatingCrew =>
  match decodeOptStr (jsGetField v "videoLink") with
  | none => none
  | some videoLink =>
  match decodeOptStr (jsGetField v "notes") with
  | none => none
  | some notes =>
  match jsNewDate (jsGetField v "createdOn") with
  | none => none
  | some createdOn =>
  match jsNewDate (jsGetField v "modifiedOn") with
  | none => none
  | some modifiedOn =>
  some (Event.mk date gender ageLevel sport eventName location homeTeam awayTeam
    officiatingCrew videoLink notes createdOn modifiedOn)

/-- `loadProject()`: dialog, read, parse, structural validation, version
check, video-existence check, then — only after all checks pass — the
commit, which replaces clips, paths, event, resets selection and marks and
clears the dirty flag.  The committed runtime clip list is the raw parsed
array; the state holds its typed view (see `Clip.ofJs?`). -/
def loadProject (env : LoadEnv) (s : StoreState) : LoadOutcome :=
  match env.openDialog with
  | none => { state := s, alerts := [], result := none }
  | some filePath =>
    if ¬ (env.readResult.success && jsTruthyStr env.readResult.content) then
      { state := s
        alerts := ["Failed to read project file: " ++ strOfOpt env.readResult.error]
        result := none }
    else
      match env.parsed with
      | none =>
        { state := s, alerts := ["Invalid JSON file. The file may be corrupted."]
          result := none }
      | some data =>
        if ¬ isValidProjectData data then
          { state := s
            alerts := ["Invalid project file structure. This does not appear to be a valid Video Clipper project."]
            result := none }
        else if ¬ jsIsSupportedVersion (jsGetField data "version") then
          { state := s
            alerts := ["Unsupported project version: " ++ jsDisplay (jsGetField data "version") ++
                       ". This application supports version " ++ PROJECT_FILE_VERSION ++ "."]
            result := none }
        else if ¬ env.fileExists then
          { state := s
            alerts := ["The video file could not be found at: " ++
                       jsDisplay (jsGetField (jsGetField data "videoSource") "path") ++
                       "\n\nTODO: Implement file relocation feature."]
            result := none }
        else
          { state :=
              { s with
                clips := (match jsGetField data "clips" with
                  | .jarr xs => xs.filterMap Clip.ofJs?
                  | _ => [])
                videoSourcePath := decodeStr? (jsGetField (jsGetField data "videoSource") "path")
                currentProjectPath := some filePath
                selectedClipIds := ∅
                markInTime := none
                markOutTime := none
                isDirty := false
                event :=
                  (let ev := jsGetField data "event"
                   if jsTruthy ev then Event.ofJs? ev else none) }
            alerts := []
            result := some (jsGetField (jsGetField data "videoSource") "path") }

/-- A runtime event object whose `videoLink` is (syntactically) not a URL,
but which satisfies every check `isValidEvent` actually performs. -/
def c9EventObj : JsVal :=
  .jobj [("date", .jdate 100),
         ("gender", .jstr "boys"),
         ("ageLevel", .jstr "Varsity"),
         ("sport", .jstr "basketball"),
         ("officiatingCrew", .jarr [.jobj [("name", .jstr "John Smith")]]),
         ("videoLink", .jstr "not a url"),
         ("createdOn", .jdate 100),
         ("modifiedOn", .jdate 100)]

/-- C9 (bug evaluation): `isValidEvent` accepts an event whose `videoLink`
is the string "not a url" — not a syntactically valid URL — because the
validator only checks that a supplied `videoLink` is a non-empty string,
although the `Event.videoLink` documentation and the repository's validation
rules require a valid URL format.  The object passes all the checks the
claim lists, so only the missing URL check separates the claim from the
code. -/
theorem c9_isValidEvent_accepts_invalid_url :
    isValidEvent c9EventObj = true ∧
    jsGetField c9EventObj "videoLink" = .jstr "not a url" := by
  constructor
  · rfl
  · rfl

/-- C3: when the video source is unset, or no event exists, or the event's
officiating crew is empty, `saveProject` opens no dialog, writes nothing,
changes no state, and raises a validation alert.  (An in-memory event
always holds a `Date` object in `date`, which is truthy, so the remaining
guard of the source — `!event.date` — cannot fire; see
`dateObjectTruthy`.) -/
theorem c3_save_preconditions (env : SaveEnv) (now : Millis) (s : StoreState)
    (h : s.videoSourcePath = none ∨ s.event = none ∨
         ∃ e, s.event = some e ∧ e.officiatingCrew = []) :
    (saveProject env now s).state = s ∧
    (saveProject env now s).dialogOpened = false ∧
    (saveProject env now s).written = none ∧
    (saveProject env now s).alerts ≠ [] := by
  rcases h with h | h | ⟨e, he, hcrew⟩
  · simp [saveProject, h]
  · rcases hvs : s.videoSourcePath with _ | vp <;> simp [saveProject, h, hvs]
  · rcases hvs : s.videoSourcePath with _ | vp <;>
      simp [saveProject, he, hvs, dateObjectTruthy, hcrew]

/-- Witness for `c3_save_preconditions` at a concrete input. -/
theorem c3_save_preconditions_witness :
    (saveProject { saveDialog := none, writeResult := { success := true, content := none, error := none } }
        0 initialState).state = initialState ∧
    (saveProject { saveDialog := none, writeResult := { success := true, content := none, error := none } }
        0 initialState).dialogOpened = false ∧
    (saveProject { saveDialog := none, writeResult := { success := true, content := none, error := none } }
        0 initialState).written = none ∧
    (saveProject { saveDialog := none, writeResult := { success := true, content := none, error := none } }
        0 initialState).alerts ≠ [] :=
  c3_save_preconditions _ 0 initialState (Or.inl rfl)

/-- C7 (amended): once the validation guards pass and a save path is
determined, `saveProject` writes the document and: on write success clears
the dirty flag (state otherwise unchanged); on write failure surfaces the
collaborator's error verbatim in the alert and leaves the state as it was
after path determination — in particular the dirty flag keeps its prior
value, but on a first save (no current project path) the chosen path has
already been committed by `setCurrentProjectPath` before the write, so it
remains set even though the write failed. -/
theorem c7_save_write_outcomes (env : SaveEnv) (now : Millis) (s : StoreState)
    (vp : String) (e : Event)
    (hvs : s.videoSourcePath = some vp) (hev : s.event = some e)
    (hcrew : e.officiatingCrew ≠ []) :
    (∀ p, s.currentProjectPath = some p →
      (env.writeResult.success = true →
        (saveProject env now s).state = { s with isDirty := false } ∧
        (saveProject env now s).alerts = []) ∧
      (env.writeResult.success = false →
        (saveProject env now s).state = s ∧
        (saveProject env now s).alerts =
          ["Failed to save project: " ++ strOfOpt env.writeResult.error])) ∧
    (∀ p, s.currentProjectPath = none → env.saveDialog = some p →
      (env.writeResult.success = true →
        (saveProject env now s).state =
          { s with currentProjectPath := some p, isDirty := false } ∧
        (saveProject env now s).alerts = []) ∧
      (env.writeResult.success = false →
        (saveProject env now s).state = { s with currentProjectPath := some p } ∧
        (saveProject env now s).alerts =
          ["Failed to save project: " ++ strOfOpt env.writeResult.error])) := by
  have hempty : e.officiatingCrew.isEmpty = false := by
    simp [List.isEmpty_iff, hcrew]
  constructor
  · intro p hp
    constructor <;> intro hw <;>
      simp [saveProject, saveProjectWrite, hvs, hev, hp, hempty, dateObjectTruthy, hw]
  · intro p hp hd
    constructor <;> intro hw <;>
      simp [saveProject, saveProjectWrite, hvs, hev, hp, hd, hempty, dateObjectTruthy, hw]

/-- A concrete populated event shared by the persistence examples. -/
def demoEvent : Event where
  date := 100
  gender := .boys
  ageLevel := .varsity
  sport := .basketball
  eventName := some "Regional"
  location := none
  homeTeam := some "Eagles"
  awayTeam := some "Wildcats"
  officiatingCrew := [{ name := "John Smith", position := some "Referee" }]
  videoLink := none
  notes := none
  createdOn := 50
  modifiedOn := 60

/-- A never-saved store state holding a video source and `demoEvent`. -/
def c7State : StoreState :=
  { initialState with
    videoSourcePath := some "/video.mp4"
    event := some demoEvent
    isDirty := true }

/-- C7 (counterexample): on a first save whose write fails, the current
project path does not stay unchanged — `saveProject` has already committed
the dialog's path before the write, so the claim's "all in-memory state
(including the current project path) is unchanged" is false of the code;
the dirty flag and the surfaced error behave as the claim says. -/
theorem c7_first_save_failure_changes_path :
    c7State.currentProjectPath = none ∧
    (saveProject
        { saveDialog := some "/proj.json"
          writeResult := { success := false, content := none, error := some "disk full" } }
        7 c7State).state.currentProjectPath = some "/proj.json" ∧
    (saveProject
        { saveDialog := some "/proj.json"
          writeResult := { success := false, content := none, error := some "disk full" } }
        7 c7State).alerts = ["Failed to save project: disk full"] ∧
    (saveProject
        { saveDialog := some "/proj.json"
          writeResult := { success := false, content := none, error := some "disk full" } }
        7 c7State).state.isDirty = true := by
  refine ⟨rfl, ?_, ?_, ?_⟩ <;> rfl

/-- Witness for `c7_save_write_outcomes` at a concrete input (a re-save
whose write fails). -/
theorem c7_save_write_outcomes_witness :
    (saveProject
        { saveDialog := none
          writeResult := { success := false, content := none, error := some "disk full" } }
        7 { c7State with currentProjectPath := some "/p1.json" }).state =
      { c7State with currentProjectPath := some "/p1.json" } ∧
    (saveProject
        { saveDialog := none
          writeResult := { success := false, content := none, error := some "disk full" } }
        7 { c7State with currentProjectPath := some "/p1.json" }).alerts =
      ["Failed to save project: " ++ strOfOpt (some "disk full")] :=
  ((c7_save_write_outcomes _ 7 _ "/video.mp4" demoEvent rfl rfl
      (by simp [demoEvent])).1 "/p1.json" rfl).2 rfl

/-- C2: on every failing outcome of `loadProject` — dialog canceled, read
failure (unsuccessful read or missing/empty content), JSON parse failure,
structural-validation failure, unsupported version, or missing video file —
the call returns null and the entire store state is exactly as before. -/
theorem c2_load_failure_preserves_state (env : LoadEnv) (s : StoreState)
    (h : env.openDialog = none ∨
         env.readResult.success = false ∨
         jsTruthyStr env.readResult.content = false ∨
         env.parsed = none ∨
         (∃ data, env.parsed = some data ∧ isValidProjectData data = false) ∨
         (∃ data, env.parsed = some data ∧
            jsIsSupportedVersion (jsGetField data "version") = false) ∨
         env.fileExists = false) :
    (loadProject env s).result = none ∧ (loadProject env s).state = s := by
  unfold loadProject
  cases ho : env.openDialog with
  | none => exact ⟨rfl, rfl⟩
  | some filePath =>
    dsimp only
    by_cases hA : (env.readResult.success && jsTruthyStr env.readResult.content) = true
    · rw [if_neg (not_not_intro hA)]
      cases hp : env.parsed with
      | none => exact ⟨rfl, rfl⟩
      | some data =>
        dsimp only
        by_cases hvalid : isValidProjectData data = true
        · rw [if_neg (not_not_intro hvalid)]
          by_cases hver : jsIsSupportedVersion (jsGetField data "version") = true
          · rw [if_neg (not_not_intro hver)]
            by_cases hex : env.fileExists = true
            · rw [if_neg (not_not_intro hex)]
              exfalso
              have h12 : env.readResult.success = true ∧
                  jsTruthyStr env.readResult.content = true := by simpa using hA
              rcases h with h | h | h | h | ⟨d, hd, hdv⟩ | ⟨d, hd, hdv⟩ | h
              · rw [h] at ho; exact Option.noConfusion ho
              · rw [h12.1] at h; exact Bool.noConfusion h
              · rw [h12.2] at h; exact Bool.noConfusion h
              · rw [h] at hp; exact Option.noConfusion hp
              · rw [hp] at hd
                obtain rfl : data = d := Option.some.inj hd
                rw [hvalid] at hdv; exact Bool.noConfusion hdv
              · rw [hp] at hd
                obtain rfl : data = d := Option.some.inj hd
                rw [hver] at hdv; exact Bool.noConfusion hdv
              · rw [h] at hex; exact Bool.noConfusion hex
            · rw [if_pos hex]; exact ⟨rfl, rfl⟩
          · rw [if_pos hver]; exact ⟨rfl, rfl⟩
        · rw [if_pos hvalid]; exact ⟨rfl, rfl⟩
    · rw [if_pos hA]; exact ⟨rfl, rfl⟩

/-- Witness for `c2_load_failure_preserves_state` at a concrete input (a
canceled open dialog). -/
theorem c2_load_failure_preserves_state_witness :
    (loadProject
        { openDialog := none
          readResult := { success := true, content := some "x", error := none }
          parsed := none, fileExists := true }
        initialState).result = none ∧
    (loadProject
        { openDialog := none
          readResult := { success := true, content := some "x", error := none }
          parsed := none, fileExists := true }
        initialState).state = initialState :=
  c2_load_failure_preserves_state _ initialState (Or.inl rfl)

/-- The runtime value of an optional field read back from an object that
stores it through `optFieldJs`: the encoded value, or `undefined`. -/
def optVal (f : α → JsVal) : Option α → JsVal
  | some v => f v
  | none => .jundefined

@[simp] lemma jsGetField_jobj (fs : List (String × JsVal)) (k : String) :
    jsGetField (.jobj fs) k = lookupField k fs := rfl

@[simp] lemma lookupField_nil (k : String) : lookupField k [] = .jundefined := rfl

@[simp] lemma lookupField_cons (k k' : String) (v : JsVal) (rest : List (String × JsVal)) :
    lookupField k ((k', v) :: rest) = if k = k' then v else lookupField k rest := rfl

/-- Skipping an optional field with a different key. -/
lemma lookupField_optField_append_ne {k k' : String} (h : k ≠ k') (f : α → JsVal)
    (o : Option α) (rest : List (String × JsVal)) :
    lookupField k (optFieldJs k' f o ++ rest) = lookupField k rest := by
  cases o <;> simp [optFieldJs, h]

/-- Reading an optional field at its own key. -/
lemma lookupField_optField_append_self (k : String) (f : α → JsVal)
    (o : Option α) (rest : List (String × JsVal)) :
    lookupField k (optFieldJs k f o ++ rest) =
      (match o with
       | some v => f v
       | none => lookupField k rest) := by
  cases o <;> simp [optFieldJs]

/-- The JSON document written for one clip: the clip's runtime object after
`JSON.stringify` (both `Date` objects and already-ISO strings in the
timestamp fields serialize to the ISO string of their instant). -/
def clipDoc (c : Clip) : JsVal :=
  .jobj ([("id", .jstr c.id),
          ("name", .jstr c.name),
          ("inSeconds", .jnum c.inSeconds),
          ("outSeconds", .jnum c.outSeconds)] ++
         optFieldJs "clipIndexNumber" .jnum c.clipIndexNumber ++
         optFieldJs "period" .jstr c.period ++
         optFieldJs "clockTime" .jstr c.clockTime ++
         optFieldJs "call" Call.toJs c.call ++
         optFieldJs "officialPosition" .jstr c.officialPosition ++
         optFieldJs "officialName" .jstr c.officialName ++
         optFieldJs "callType" .jstr c.callType ++
         optFieldJs "wasShooting" .jbool c.wasShooting ++
         optFieldJs "wasMultipleWhistles" .jbool c.wasMultipleWhistles ++
         optFieldJs "wasCorrectDecision" .jstr c.wasCorrectDecision ++
         optFieldJs "wasCorrectOfficialPosition" .jstr c.wasCorrectOfficialPosition ++
         optFieldJs "shouldReview" .jbool c.shouldReview ++
         optFieldJs "description" .jstr c.description ++
         optFieldJs "tags" .jstr c.tags ++
         optFieldJs "comments" .jstr c.comments ++
         [("createdOn", .jiso c.createdOn.instant),
          ("modifiedOn", .jiso c.modifiedOn.instant)])

/-- The JSON document written for the event: its runtime object after
`JSON.stringify` (`Date` fields become ISO strings). -/
def eventDoc (e : Event) : JsVal :=
  .jobj ([("date", .jiso e.date),
          ("gender", .jstr e.gender.toStr),
          ("ageLevel", .jstr e.ageLevel.toStr),
          ("sport", .jstr e.sport.toStr)] ++
         optFieldJs "eventName" .jstr e.eventName ++
         optFieldJs "location" .jstr e.location ++
         optFieldJs "homeTeam" .jstr e.homeTeam ++
         optFieldJs "awayTeam" .jstr e.awayTeam ++
         [("officiatingCrew", .jarr (e.officiatingCrew.map Official.toJs))] ++
         optFieldJs "videoLink" .jstr e.videoLink ++
         optFieldJs "notes" .jstr e.notes ++
         [("createdOn", .jiso e.createdOn),
          ("modifiedOn", .jiso e.modifiedOn)])

/-- The whole JSON document `saveProject` writes, in closed form. -/
def projectDoc (now : Millis) (vp : String) (e : Event) (clips : List Clip) : JsVal :=
  .jobj [("version", .jstr PROJECT_FILE_VERSION),
         ("appVersion", .jstr "1.0.0"),
         ("created", .jiso now),
         ("modified", .jiso now),
         ("videoSource", .jobj [("path", .jstr vp)]),
         ("event", eventDoc e),
         ("clips", .jarr (clips.map clipDoc))]

lemma jsonStringifyFields_append (l1 l2 : List (String × JsVal)) :
    jsonStringifyFields (l1 ++ l2) =
      jsonStringifyFields l1 ++ jsonStringifyFields l2 := by
  induction l1 with
  | nil => rfl
  | cons kv rest ih =>
    obtain ⟨k, v⟩ := kv
    cases h : jsonStringifyVal v <;>
      simp [jsonStringifyFields, h, ih]

lemma jsonStringifyFields_optField_jstr (k : String) (o : Option String) :
    jsonStringifyFields (optFieldJs k .jstr o) = optFieldJs k .jstr o := by
  cases o <;> rfl

lemma jsonStringifyFields_optField_jnum (k : String) (o : Option ℚ) :
    jsonStringifyFields (optFieldJs k .jnum o) = optFieldJs k .jnum o := by
  cases o <;> rfl

lemma jsonStringifyFields_optField_jbool (k : String) (o : Option Bool) :
    jsonStringifyFields (optFieldJs k .jbool o) = optFieldJs k .jbool o := by
  cases o <;> rfl

/-- `JSON.stringify` is the identity on a call's runtime object. -/
lemma jsonStringifyVal_callToJs (c : Call) :
    jsonStringifyVal (Call.toJs c) = Call.toJs c := rfl

lemma jsonStringifyFields_optField_call (k : String) (o : Option Call) :
    jsonStringifyFields (optFieldJs k Call.toJs o) = optFieldJs k Call.toJs o := by
  cases o <;> rfl

/-- `JSON.stringify` is the identity on an official's runtime object. -/
lemma jsonStringifyVal_officialToJs (o : Official) :
    jsonStringifyVal (Official.toJs o) = Official.toJs o := by
  obtain ⟨n, p⟩ := o
  cases p <;> rfl

lemma jsonStringifyElems_map_official (crew : List Official) :
    jsonStringifyElems (crew.map Official.toJs) = crew.map Official.toJs := by
  induction crew with
  | nil => rfl
  | cons o rest ih =>
    obtain ⟨n, p⟩ := o
    cases p <;>
      simp [jsonStringifyElems, jsonStringifyVal, jsonStringifyFields, Official.toJs,
            optFieldJs, ih]

@[simp] lemma jsonStringifyFields_nil : jsonStringifyFields [] = [] := rfl

@[simp] lemma jsonStringifyVal_jobj (fs : List (String × JsVal)) :
    jsonStringifyVal (.jobj fs) = .jobj (jsonStringifyFields fs) := rfl

lemma jsonStringifyFields_cons_jstr (k s : String) (rest : List (String × JsVal)) :
    jsonStringifyFields ((k, .jstr s) :: rest) = (k, .jstr s) :: jsonStringifyFields rest := rfl

lemma jsonStringifyFields_cons_jnum (k : String) (q : ℚ) (rest : List (String × JsVal)) :
    jsonStringifyFields ((k, .jnum q) :: rest) = (k, .jnum q) :: jsonStringifyFields rest := rfl

lemma jsonStringifyFields_cons_jiso (k : String) (ms : Millis) (rest : List (String × JsVal)) :
    jsonStringifyFields ((k, .jiso ms) :: rest) = (k, .jiso ms) :: jsonStringifyFields rest := rfl

lemma jsonStringifyFields_cons_jdate (k : String) (ms : Millis) (rest : List (String × JsVal)) :
    jsonStringifyFields ((k, .jdate ms) :: rest) = (k, .jiso ms) :: jsonStringifyFields rest := rfl

lemma jsonStringifyFields_cons_jobj (k : String) (fs : List (String × JsVal))
    (rest : List (String × JsVal)) :
    jsonStringifyFields ((k, .jobj fs) :: rest) =
      (k, .jobj (jsonStringifyFields fs)) :: jsonStringifyFields rest := rfl

lemma jsonStringifyFields_cons_jarr (k : String) (xs : List JsVal)
    (rest : List (String × JsVal)) :
    jsonStringifyFields ((k, .jarr xs) :: rest) =
      (k, .jarr (jsonStringifyElems xs)) :: jsonStringifyFields rest := rfl

lemma jsonStringifyFields_cons_dateLike (k : String) (d : DateLike)
    (rest : List (String × JsVal)) :
    jsonStringifyFields ((k, d.toJs) :: rest) =
      (k, .jiso d.instant) :: jsonStringifyFields rest := by
  cases d <;> rfl

lemma jsonStringifyFields_cons_call (k : String) (c : Call) (rest : List (String × JsVal)) :
    jsonStringifyFields ((k, Call.toJs c) :: rest) =
      (k, Call.toJs c) :: jsonStringifyFields rest := rfl

lemma jsonStringifyFields_cons_event (k : String) (e : Event) (rest : List (String × JsVal)) :
    jsonStringifyFields ((k, Event.toJs e) :: rest) =
      (k, jsonStringifyVal (Event.toJs e)) :: jsonStringifyFields rest := rfl

/-- Serializing a clip's runtime object yields its document form. -/
lemma jsonStringifyVal_clipToJs (c : Clip) :
    jsonStringifyVal (Clip.toJs c) = clipDoc c := by
  simp only [Clip.toJs, clipDoc, jsonStringifyVal_jobj, jsonStringifyFields_append,
             jsonStringifyFields_optField_jstr, jsonStringifyFields_optField_jnum,
             jsonStringifyFields_optField_jbool, jsonStringifyFields_optField_call,
             jsonStringifyFields_cons_jstr, jsonStringifyFields_cons_jnum,
             jsonStringifyFields_cons_dateLike, jsonStringifyFields_nil,
             List.append_nil, List.nil_append]

/-- Serializing the event's runtime object yields its document form. -/
lemma jsonStringifyVal_eventToJs (e : Event) :
    jsonStringifyVal (Event.toJs e) = eventDoc e := by
  simp only [Event.toJs, eventDoc, jsonStringifyVal_jobj, jsonStringifyFields_append,
             jsonStringifyFields_optField_jstr,
             jsonStringifyFields_cons_jstr, jsonStringifyFields_cons_jdate,
             jsonStringifyFields_cons_jarr, jsonStringifyElems_map_official,
             jsonStringifyFields_nil, List.append_nil, List.nil_append]

lemma jsonStringifyElems_map_clip (cs : List Clip) :
    jsonStringifyElems (cs.map Clip.toJs) = cs.map clipDoc := by
  induction cs with
  | nil => rfl
  | cons c rest ih =>
    simp only [List.map_cons, jsonStringifyElems, jsonStringifyVal_clipToJs, ih]
    simp [clipDoc]

/-- The document `saveProject` writes, in closed form. -/
lemma saveDocOf_eq (now : Millis) (vp : String) (e : Event) (clips : List Clip) :
    saveDocOf now vp e clips = projectDoc now vp e clips := by
  simp only [saveDocOf, ProjectData.toJs, projectDoc, optFieldJs, jsonStringifyVal_jobj,
             jsonStringifyFields_append, jsonStringifyFields_cons_jstr,
             jsonStringifyFields_cons_jiso, jsonStringifyFields_cons_jobj,
             jsonStringifyFields_cons_jarr, jsonStringifyFields_cons_event,
             jsonStringifyVal_eventToJs, jsonStringifyElems_map_clip,
             jsonStringifyFields_nil, List.append_nil, List.nil_append,
             List.cons_append]

lemma clipDoc_get_id (c : Clip) :
    jsGetField (clipDoc c) "id" = .jstr c.id := by
  simp [clipDoc, lookupField_optField_append_ne, lookupField_optField_append_self, optVal]

lemma clipDoc_get_name (c : Clip) :
    jsGetField (clipDoc c) "name" = .jstr c.name := by
  simp [clipDoc, lookupField_optField_append_ne, lookupField_optField_append_self, optVal]

lemma clipDoc_get_inSeconds (c : Clip) :
    jsGetField (clipDoc c) "inSeconds" = .jnum c.inSeconds := by
  simp [clipDoc, lookupField_optField_append_ne, lookupField_optField_append_self, optVal]

lemma clipDoc_get_outSeconds (c : Clip) :
    jsGetField (clipDoc c) "outSeconds" = .jnum c.outSeconds := by
  simp [clipDoc, lookupField_optField_append_ne, lookupField_optField_append_self, optVal]

lemma clipDoc_get_clipIndexNumber (c : Clip) :
    jsGetField (clipDoc c) "clipIndexNumber" = optVal .jnum c.clipIndexNumber := by
  simp [clipDoc, lookupField_optField_append_ne, lookupField_optField_append_self, optVal]

lemma clipDoc_get_period (c : Clip) :
    jsGetField (clipDoc c) "period" = optVal .jstr c.period := by
  simp [clipDoc, lookupField_optField_append_ne, lookupField_optField_append_self, optVal]

lemma clipDoc_get_clockTime (c : Clip) :
    jsGetField (clipDoc c) "clockTime" = optVal .jstr c.clockTime := by
  simp [clipDoc, lookupField_optField_append_ne, lookupField_optField_append_self, optVal]

lemma clipDoc_get_call (c : Clip) :
    jsGetField (clipDoc c) "call" = optVal Call.toJs c.call := by
  simp [clipDoc, lookupField_optField_append_ne, lookupField_optField_append_self, optVal]

lemma clipDoc_get_officialPosition (c : Clip) :
    jsGetField (clipDoc c) "officialPosition" = optVal .jstr c.officialPosition := by
  simp [clipDoc, lookupField_optField_append_ne, lookupField_optField_append_self, optVal]

lemma clipDoc_get_officialName (c : Clip) :
    jsGetField (clipDoc c) "officialName" = optVal .jstr c.officialName := by
  simp [clipDoc, lookupField_optField_append_ne, lookupField_optField_append_self, optVal]

lemma clipDoc_get_callType (c : Clip) :
    jsGetField (clipDoc c) "callType" = optVal .jstr c.callType := by
  simp [clipDoc, lookupField_optField_append_ne, lookupField_optField_append_self, optVal]

lemma clipDoc_get_wasShooting (c : Clip) :
    jsGetField (clipDoc c) "wasShooting" = optVal .jbool c.wasShooting := by
  simp [clipDoc, lookupField_optField_append_ne, lookupField_optField_append_self, optVal]

lemma clipDoc_get_wasMultipleWhistles (c : Clip) :
    jsGetField (clipDoc c) "wasMultipleWhistles" = optVal .jbool c.wasMultipleWhistles := by
  simp [clipDoc, lookupField_optField_append_ne, lookupField_optField_append_self, optVal]

lemma clipDoc_get_wasCorrectDecision (c : Clip) :
    jsGetField (clipDoc c) "wasCorrectDecision" = optVal .jstr c.wasCorrectDecision := by
  simp [clipDoc, lookupField_optField_append_ne, lookupField_optField_append_self, optVal]

lemma clipDoc_get_wasCorrectOfficialPosition (c : Clip) :
    jsGetField (clipDoc c) "wasCorrectOfficialPosition" = optVal .jstr c.wasCorrectOfficialPosition := by
  simp [clipDoc, lookupField_optField_append_ne, lookupField_optField_append_self, optVal]

lemma clipDoc_get_shouldReview (c : Clip) :
    jsGetField (clipDoc c) "shouldReview" = optVal .jbool c.shouldReview := by
  simp [clipDoc, lookupField_optField_append_ne, lookupField_optField_append_self, optVal]

lemma clipDoc_get_description (c : Clip) :
    jsGetField (clipDoc c) "description" = optVal .jstr c.description := by
  simp [clipDoc, lookupField_optField_append_ne, lookupField_optField_append_self, optVal]

lemma clipDoc_get_tags (c : Clip) :
    jsGetField (clipDoc c) "tags" = optVal .jstr c.tags := by
  simp [clipDoc, lookupField_optField_append_ne, lookupField_optField_append_self, optVal]

lemma clipDoc_get_comments (c : Clip) :
    jsGetField (clipDoc c) "comments" = optVal .jstr c.comments := by
  simp [clipDoc, lookupField_optField_append_ne, lookupField_optField_append_self, optVal]

lemma clipDoc_get_createdOn (c : Clip) :
    jsGetField (clipDoc c) "createdOn" = .jiso c.createdOn.instant := by
  simp [clipDoc, lookupField_optField_append_ne, lookupField_optField_append_self, optVal]

lemma clipDoc_get_modifiedOn (c : Clip) :
    jsGetField (clipDoc c) "modifiedOn" = .jiso c.modifiedOn.instant := by
  simp [clipDoc, lookupField_optField_append_ne, lookupField_optField_append_self, optVal]

lemma eventDoc_get_date (e : Event) :
    jsGetField (eventDoc e) "date" = .jiso e.date := by
  simp [eventDoc, lookupField_optField_append_ne, lookupField_optField_append_self, optVal]

lemma eventDoc_get_gender (e : Event) :
    jsGetField (eventDoc e) "gender" = .jstr e.gender.toStr := by
  simp [eventDoc, lookupField_optField_append_ne, lookupField_optField_append_self, optVal]

lemma eventDoc_get_ageLevel (e : Event) :
    jsGetField (eventDoc e) "ageLevel" = .jstr e.ageLevel.toStr := by
  simp [eventDoc, lookupField_optField_append_ne, lookupField_optField_append_self, optVal]

lemma eventDoc_get_sport (e : Event) :
    jsGetField (eventDoc e) "sport" = .jstr e.sport.toStr := by
  simp [eventDoc, lookupField_optField_append_ne, lookupField_optField_append_self, optVal]

lemma eventDoc_get_eventName (e : Event) :
    jsGetField (eventDoc e) "eventName" = optVal .jstr e.eventName := by
  simp [eventDoc, lookupField_optField_append_ne, lookupField_optField_append_self, optVal]

lemma eventDoc_get_location (e : Event) :
    jsGetField (eventDoc e) "location" = optVal .jstr e.location := by
  simp [eventDoc, lookupField_optField_append_ne, lookupField_optField_append_self, optVal]

lemma eventDoc_get_homeTeam (e : Event) :
    jsGetField (eventDoc e) "homeTeam" = optVal .jstr e.homeTeam := by
  simp [eventDoc, lookupField_optField_append_ne, lookupField_optField_append_self, optVal]

lemma eventDoc_get_awayTeam (e : Event) :
    jsGetField (eventDoc e) "awayTeam" = optVal .jstr e.awayTeam := by
  simp [eventDoc, lookupField_optField_append_ne, lookupField_optField_append_self, optVal]

lemma eventDoc_get_officiatingCrew (e : Event) :
    jsGetField (eventDoc e) "officiatingCrew" = .jarr (e.officiatingCrew.map Official.toJs) := by
  simp [eventDoc, lookupField_optField_append_ne, lookupField_optField_append_self, optVal]

lemma eventDoc_get_videoLink (e : Event) :
    jsGetField (eventDoc e) "videoLink" = optVal .jstr e.videoLink := by
  simp [eventDoc, lookupField_optField_append_ne, lookupField_optField_append_self, optVal]

lemma eventDoc_get_notes (e : Event) :
    jsGetField (eventDoc e) "notes" = optVal .jstr e.notes := by
  simp [eventDoc, lookupField_optField_append_ne, lookupField_optField_append_self, optVal]

lemma eventDoc_get_createdOn (e : Event) :
    jsGetField (eventDoc e) "createdOn" = .jiso e.createdOn := by
  simp [eventDoc, lookupField_optField_append_ne, lookupField_optField_append_self, optVal]

lemma eventDoc_get_modifiedOn (e : Event) :
    jsGetField (eventDoc e) "modifiedOn" = .jiso e.modifiedOn := by
  simp [eventDoc, lookupField_optField_append_ne, lookupField_optField_append_self, optVal]

lemma projectDoc_get_version (now : Millis) (vp : String) (e : Event) (clips : List Clip) :
    jsGetField (projectDoc now vp e clips) "version" = .jstr PROJECT_FILE_VERSION := by
  simp [projectDoc]

lemma projectDoc_get_appVersion (now : Millis) (vp : String) (e : Event) (clips : List Clip) :
    jsGetField (projectDoc now vp e clips) "appVersion" = .jstr "1.0.0" := by
  simp [projectDoc]

lemma projectDoc_get_created (now : Millis) (vp : String) (e : Event) (clips : List Clip) :
    jsGetField (projectDoc now vp e clips) "created" = .jiso now := by
  simp [projectDoc]

lemma projectDoc_get_modified (now : Millis) (vp : String) (e : Event) (clips : List Clip) :
    jsGetField (projectDoc now vp e clips) "modified" = .jiso now := by
  simp [projectDoc]

lemma projectDoc_get_videoSource (now : Millis) (vp : String) (e : Event) (clips : List Clip) :
    jsGetField (projectDoc now vp e clips) "videoSource" = .jobj [("path", .jstr vp)] := by
  simp [projectDoc]

lemma projectDoc_get_event (now : Millis) (vp : String) (e : Event) (clips : List Clip) :
    jsGetField (projectDoc now vp e clips) "event" = eventDoc e := by
  simp [projectDoc]

lemma projectDoc_get_clips (now : Millis) (vp : String) (e : Event) (clips : List Clip) :
    jsGetField (projectDoc now vp e clips) "clips" = .jarr (clips.map clipDoc) := by
  simp [projectDoc]

lemma decodeOptStr_optVal (o : Option String) : decodeOptStr (optVal .jstr o) = some o := by
  cases o <;> rfl

lemma decodeOptNum_optVal (o : Option ℚ) : decodeOptNum (optVal .jnum o) = some o := by
  cases o <;> rfl

lemma decodeOptBool_optVal (o : Option Bool) : decodeOptBool (optVal .jbool o) = some o := by
  cases o <;> rfl

/-- A call's runtime object decodes back to the call. -/
lemma Call_ofJs_toJs (c : Call) : Call.ofJs? (Call.toJs c) = some c := by
  obtain ⟨i, n, cat⟩ := c
  cases cat <;> rfl

lemma decodeOptCall_optVal (o : Option Call) :
    decodeOptCall (optVal Call.toJs o) = some o := by
  cases o with
  | none => rfl
  | some c =>
    show (Call.ofJs? (Call.toJs c)).map some = some (some c)
    rw [Call_ofJs_toJs]
    rfl

/-- An official's runtime object decodes back to the official. -/
lemma Official_ofJs_toJs (o : Official) : Official.ofJs? (Official.toJs o) = some o := by
  obtain ⟨n, p⟩ := o
  cases p <;> rfl

lemma decodeOfficials_map_toJs (crew : List Official) :
    decodeOfficials (crew.map Official.toJs) = some crew := by
  induction crew with
  | nil => rfl
  | cons o rest ih => simp [decodeOfficials, Official_ofJs_toJs, ih]

/-- What a clip becomes after a save/load round trip: every field as
before, except that the `Date`-typed fields now hold the file's ISO strings
(same instants). -/
def clipLoadedView (c : Clip) : Clip :=
  { c with
    createdOn := .isoStr c.createdOn.instant
    modifiedOn := .isoStr c.modifiedOn.instant }

/-- A clip's document decodes to the clip's loaded view. -/
lemma Clip_ofJs_clipDoc (c : Clip) : Clip.ofJs? (clipDoc c) = some (clipLoadedView c) := by
  simp only [Clip.ofJs?, clipDoc_get_id, clipDoc_get_name, clipDoc_get_inSeconds,
             clipDoc_get_outSeconds, clipDoc_get_clipIndexNumber, clipDoc_get_period,
             clipDoc_get_clockTime, clipDoc_get_call, clipDoc_get_officialPosition,
             clipDoc_get_officialName, clipDoc_get_callType, clipDoc_get_wasShooting,
             clipDoc_get_wasMultipleWhistles, clipDoc_get_wasCorrectDecision,
             clipDoc_get_wasCorrectOfficialPosition, clipDoc_get_shouldReview,
             clipDoc_get_description, clipDoc_get_tags, clipDoc_get_comments,
             clipDoc_get_createdOn, clipDoc_get_modifiedOn,
             decodeOptStr_optVal, decodeOptNum_optVal, decodeOptBool_optVal,
             decodeOptCall_optVal, decodeStr?, decodeNum?, decodeDateLike]
  rfl

lemma genderOfStr_toStr (g : Gender) : Gender.ofStr? g.toStr = some g := by
  cases g <;> rfl

lemma ageLevelOfStr_toStr (a : AgeLevel) : AgeLevel.ofStr? a.toStr = some a := by
  cases a <;> rfl

lemma sportOfStr_toStr (sp : Sport) : Sport.ofStr? sp.toStr = some sp := by
  cases sp <;> rfl

/-- The event's document decodes (with the `new Date` conversions the
commit performs) back to the original event: its `Date` instants are
restored exactly. -/
lemma Event_ofJs_eventDoc (e : Event) : Event.ofJs? (eventDoc e) = some e := by
  simp only [Event.ofJs?, eventDoc_get_date, eventDoc_get_gender, eventDoc_get_ageLevel,
             eventDoc_get_sport, eventDoc_get_eventName, eventDoc_get_location,
             eventDoc_get_homeTeam, eventDoc_get_awayTeam, eventDoc_get_officiatingCrew,
             eventDoc_get_videoLink, eventDoc_get_notes, eventDoc_get_createdOn,
             eventDoc_get_modifiedOn, decodeOptStr_optVal, decodeOfficials_map_toJs,
             jsNewDate, genderOfStr_toStr, ageLevelOfStr_toStr, sportOfStr_toStr]

/-- Every clip document passes the structural per-clip shape check. -/
lemma isValidClipShape_clipDoc (c : Clip) : isValidClipShape (clipDoc c) = true := by
  simp [isValidClipShape, clipDoc_get_id, clipDoc_get_name, clipDoc_get_inSeconds,
        clipDoc_get_outSeconds, jsTypeofString, jsTypeofNumber, jsIsObjectNonNull, clipDoc]

/-- The saved document passes the structural project gate. -/
lemma isValidProjectData_projectDoc (now : Millis) (vp : String) (e : Event)
    (clips : List Clip) : isValidProjectData (projectDoc now vp e clips) = true := by
  simp only [isValidProjectData, projectDoc_get_version, projectDoc_get_appVersion,
             projectDoc_get_created, projectDoc_get_modified, projectDoc_get_videoSource,
             projectDoc_get_clips]
  simp only [projectDoc, jsIsObjectNonNull, jsTypeofString, jsGetField_jobj,
             lookupField_cons, lookupField_nil]
  simp [List.all_eq_true, isValidClipShape_clipDoc]

/-- The saved document carries the supported version string. -/
lemma jsIsSupportedVersion_projectDoc (now : Millis) (vp : String) (e : Event)
    (clips : List Clip) :
    jsIsSupportedVersion (jsGetField (projectDoc now vp e clips) "version") = true := by
  rw [projectDoc_get_version]
  rfl

lemma filterMap_clipDoc (cs : List Clip) :
    (cs.map clipDoc).filterMap Clip.ofJs? = cs.map clipLoadedView := by
  induction cs with
  | nil => rfl
  | cons c rest ih => simp [Clip_ofJs_clipDoc, ih]

/-- Field-for-field equality of clips, with the `Date`-typed fields
compared by instant. -/
def clipInstantEq (a b : Clip) : Prop :=
  a.id = b.id ∧ a.name = b.name ∧ a.inSeconds = b.inSeconds ∧ a.outSeconds = b.outSeconds ∧
  a.clipIndexNumber = b.clipIndexNumber ∧ a.period = b.period ∧ a.clockTime = b.clockTime ∧
  a.call = b.call ∧ a.officialPosition = b.officialPosition ∧
  a.officialName = b.officialName ∧ a.callType = b.callType ∧
  a.wasShooting = b.wasShooting ∧ a.wasMultipleWhistles = b.wasMultipleWhistles ∧
  a.wasCorrectDecision = b.wasCorrectDecision ∧
  a.wasCorrectOfficialPosition = b.wasCorrectOfficialPosition ∧
  a.shouldReview = b.shouldReview ∧ a.description = b.description ∧ a.tags = b.tags ∧
  a.comments = b.comments ∧ a.createdOn.instant = b.createdOn.instant ∧
  a.modifiedOn.instant = b.modifiedOn.instant

lemma clipInstantEq_loadedView (c : Clip) : clipInstantEq (clipLoadedView c) c := by
  refine ⟨rfl, rfl, rfl, rfl, rfl, rfl, rfl, rfl, rfl, rfl, rfl, rfl, rfl, rfl, rfl,
          rfl, rfl, rfl, rfl, ?_, ?_⟩ <;> rfl

lemma forall₂_clipInstantEq_loadedView (cs : List Clip) :
    List.Forall₂ clipInstantEq (cs.map clipLoadedView) cs := by
  induction cs with
  | nil => exact List.Forall₂.nil
  | cons c rest ih => exact List.Forall₂.cons (clipInstantEq_loadedView c) ih

/-- C1: round-trip law.  Whenever `saveProject` can save (video source set,
event populated, crew non-empty, save path known), it writes exactly the
versioned document `saveDocOf`, and feeding that document back through
`loadProject`'s parse-and-commit path (from any starting state, with the
collaborators reporting a chosen file, a successful read, and an existing
video file) commits clip data field-for-field equal to the original (the
`Date`-typed clip fields comparing by instant — after the round trip they
hold the ISO strings of the same instants), the event equal to the original
(its `Date` fields restored to the same instants), and the original video
source path. -/
theorem c1_save_load_roundtrip
    (senv : SaveEnv) (now : Millis) (s : StoreState) (vp p : String) (e : Event)
    (hvs : s.videoSourcePath = some vp) (hev : s.event = some e)
    (hcrew : e.officiatingCrew ≠ []) (hpath : s.currentProjectPath = some p) :
    (saveProject senv now s).written = some (p, saveDocOf now vp e s.clips) ∧
    (∀ (lenv : LoadEnv) (s2 : StoreState) (f : String),
      lenv.openDialog = some f →
      lenv.readResult.success = true →
      jsTruthyStr lenv.readResult.content = true →
      lenv.parsed = some (saveDocOf now vp e s.clips) →
      lenv.fileExists = true →
      List.Forall₂ clipInstantEq (loadProject lenv s2).state.clips s.clips ∧
      (loadProject lenv s2).state.event = some e ∧
      (loadProject lenv s2).state.videoSourcePath = some vp ∧
      (loadProject lenv s2).result = some (.jstr vp)) := by
  constructor
  · have hempty : e.officiatingCrew.isEmpty = false := by
      simp [List.isEmpty_iff, hcrew]
    by_cases hw : senv.writeResult.success = true <;>
      simp [saveProject, saveProjectWrite, hvs, hev, hpath, hempty, dateObjectTruthy, hw]
  · intro lenv s2 f hf hrs hrc hparse hfe
    rw [saveDocOf_eq] at hparse
    have hA : (lenv.readResult.success && jsTruthyStr lenv.readResult.content) = true := by
      rw [hrs, hrc]; rfl
    unfold loadProject
    rw [hf]
    dsimp only
    rw [if_neg (not_not_intro hA), hparse]
    dsimp only
    rw [if_neg (not_not_intro (isValidProjectData_projectDoc now vp e s.clips)),
        if_neg (not_not_intro (jsIsSupportedVersion_projectDoc now vp e s.clips)),
        if_neg (not_not_intro hfe)]
    refine ⟨?_, ?_, ?_, ?_⟩
    · dsimp only
      rw [projectDoc_get_clips]
      dsimp only
      rw [filterMap_clipDoc]
      exact forall₂_clipInstantEq_loadedView s.clips
    · dsimp only
      rw [projectDoc_get_event]
      have ht : jsTruthy (eventDoc e) = true := by simp [eventDoc, jsTruthy]
      simp only [ht, if_true]
      exact Event_ofJs_eventDoc e
    · dsimp only
      rw [projectDoc_get_videoSource]
      rfl
    · dsimp only
      rw [projectDoc_get_videoSource]
      rfl

/-- A concrete annotated clip for the round-trip witness. -/
def demoClip : Clip where
  id := "c1"
  name := "Travel"
  inSeconds := 342.5
  outSeconds := 348.2
  clipIndexNumber := some 1
  period := some "3rd Quarter"
  clockTime := none
  call := some { id := 1, callName := "Traveling", callCategoryId := .violation }
  officialPosition := some "Lead"
  officialName := none
  callType := some "Call"
  wasShooting := some false
  wasMultipleWhistles := none
  wasCorrectDecision := some "Yes"
  wasCorrectOfficialPosition := none
  shouldReview := some true
  description := some "drive to the basket"
  tags := none
  comments := none
  createdOn := .date 500
  modifiedOn := .date 600

/-- A previously saved store state for the round-trip witness. -/
def c1State : StoreState :=
  { initialState with
    clips := [demoClip]
    videoSourcePath := some "/video.mp4"
    currentProjectPath := some "/proj.json"
    event := some demoEvent
    isDirty := true }

/-- Load-collaborator outcomes feeding the saved document back in. -/
def c1LoadEnv : LoadEnv where
  openDialog := some "/proj.json"
  readResult := { success := true, content := some "filetext", error := none }
  parsed := some (saveDocOf 7 "/video.mp4" demoEvent c1State.clips)
  fileExists := true

/-- Witness for `c1_save_load_roundtrip` at concrete inputs. -/
theorem c1_save_load_roundtrip_witness :
    (saveProject { saveDialog := none, writeResult := { success := true, content := none, error := none } }
        7 c1State).written =
      some ("/proj.json", saveDocOf 7 "/video.mp4" demoEvent c1State.clips) ∧
    (List.Forall₂ clipInstantEq (loadProject c1LoadEnv initialState).state.clips c1State.clips ∧
     (loadProject c1LoadEnv initialState).state.event = some demoEvent ∧
     (loadProject c1LoadEnv initialState).state.videoSourcePath = some "/video.mp4" ∧
     (loadProject c1LoadEnv initialState).result = some (.jstr "/video.mp4")) := by
  have h := c1_save_load_roundtrip
    { saveDialog := none, writeResult := { success := true, content := none, error := none } }
    7 c1State "/video.mp4" "/proj.json" demoEvent rfl rfl (by simp [demoEvent]) rfl
  exact ⟨h.1, h.2 c1LoadEnv initialState "/proj.json" rfl rfl rfl rfl rfl⟩
